import Mathlib

/-!
# Verification of the bot-downloader download/cleanup core

Shallow embedding of the repository `GlebDontsov/bot-downloader`
(`app/services/youtube_service.py`, `app/utils/funcs.py`) together with
theorems settling the frozen claims about it.

The embedding works over explicit state (`DB`, `FS`); external collaborators
(the yt-dlp metadata/media fetch, the relational store, the filesystem) are
modelled at their interfaces, as the spec prescribes.  Model-layer helper
methods (`mark_as_started`, `mark_as_completed`, `mark_as_failed`,
`increment_download_count`, `increment_downloads`) live in
`app/models/*.py`, which is not part of the provided sources; they are
modelled from the spec and carry `Modelled from the spec:` doc comments.
-/

namespace Bot

/-! ## URL resolver (`YouTubeService.extract_video_id`, youtube_service.py:34-69)

The Python function applies 20 regular expressions with `re.search`
(unanchored search, first pattern in the list wins, leftmost occurrence
wins within a pattern).  Each regex is an optional scheme/subdomain part
followed by a fixed core literal and a capturing suffix.  The optional
prefixes never influence the captured group, so each regex is embedded as
"leftmost occurrence of the core literal whose continuation succeeds".
Character classes are embedded at their ASCII meaning. -/

/-- `[a-zA-Z0-9_-]`, the YouTube id character class. -/
def idChar (c : Char) : Bool := c.isAlpha || c.isDigit || c == '_' || c == '-'

/-- `[A-Za-z0-9]`. -/
def alnumChar (c : Char) : Bool := c.isAlpha || c.isDigit

/-- `[a-f0-9]`, the RuTube id character class (lower-case hex). -/
def hexChar (c : Char) : Bool := (decide ('a' ≤ c) && decide (c ≤ 'f')) || c.isDigit

/-- Boolean list-prefix test (avoids any library string machinery). -/
def isPre : List Char → List Char → Bool
  | [], _ => true
  | _ :: _, [] => false
  | a :: as, b :: bs => a == b && isPre as bs

/-- Does `lit` occur as a contiguous substring of `s`? -/
def containsSub (lit : List Char) : List Char → Bool
  | [] => isPre lit []
  | c :: t => isPre lit (c :: t) || containsSub lit t

/-- Match the fixed core literal here, then run the continuation on the rest. -/
def litThen (lit : List Char) (k : List Char → Option (List Char))
    (s : List Char) : Option (List Char) :=
  if isPre lit s then k (s.drop lit.length) else none

/-- `re.search`: try the step at every position, leftmost success wins. -/
def searchAux (step : List Char → Option (List Char)) : List Char → Option (List Char)
  | [] => step []
  | c :: rest =>
      match step (c :: rest) with
      | some r => some r
      | none => searchAux step rest

/-- Continuation for `(C+)` : a greedy non-empty run of class `P`. -/
def groupPlus (P : Char → Bool) (s : List Char) : Option (List Char) :=
  let g := s.takeWhile P
  if g.isEmpty then none else some g

/-- Continuation for `(C+)lit` : greedy non-empty class run followed by a literal
(the class never contains the literal's first character, so no backtracking). -/
def groupPlusThenLit (P : Char → Bool) (lit : List Char)
    (s : List Char) : Option (List Char) :=
  let g := s.takeWhile P
  if g.isEmpty then none
  else if isPre lit (s.drop g.length) then some g else none

/-- Continuation of `tiktok\.com/@[^/]+/video/(\d+)` after its core literal. -/
def tiktokAtCont (s : List Char) : Option (List Char) :=
  let u := s.takeWhile (fun c => !(c == '/'))
  if u.isEmpty then none
  else
    let r := s.drop u.length
    if isPre "/video/".data r then groupPlus Char.isDigit (r.drop 7) else none

/-- Continuation for the VK `(-?\d+_\d+)` capture. -/
def vkComposite (s : List Char) : Option (List Char) :=
  let neg := s.head? == some '-'
  let s1 := if neg then s.tail else s
  let d1 := s1.takeWhile Char.isDigit
  if d1.isEmpty then none
  else
    let r := s1.drop d1.length
    if r.head? == some '_' then
      let d2 := r.tail.takeWhile Char.isDigit
      if d2.isEmpty then none
      else some ((if neg then ['-'] else []) ++ d1 ++ '_' :: d2)
    else none

/-- Continuation of `vkvideo\.ru/playlist/[^/]+/video(-?\d+_\d+)` after its core. -/
def vkPlaylistCont (s : List Char) : Option (List Char) :=
  let p := s.takeWhile (fun c => !(c == '/'))
  if p.isEmpty then none
  else
    let r := s.drop p.length
    if isPre "/video".data r then vkComposite (r.drop 6) else none

/-- `.*?lit` followed by a continuation: the lazy gap may not cross a newline
(`.` does not match `\n`); the earliest occurrence of `lit` whose continuation
succeeds wins. -/
def lazySearch (lit : List Char) (k : List Char → Option (List Char)) :
    List Char → Option (List Char)
  | [] => litThen lit k []
  | c :: rest =>
      match litThen lit k (c :: rest) with
      | some r => some r
      | none => if c == '\n' then none else lazySearch lit k rest

/-- The 20 patterns of `extract_video_id`, in source order
(youtube_service.py:37-62): core literal plus capture continuation. -/
def patterns : List (List Char × (List Char → Option (List Char))) :=
  [ ("youtube.com/watch?v=".data, groupPlus idChar),
    ("youtu.be/".data, groupPlus idChar),
    ("youtube.com/embed/".data, groupPlus idChar),
    ("youtube.com/v/".data, groupPlus idChar),
    ("youtube.com/shorts/".data, groupPlus idChar),
    ("tiktok.com/@".data, tiktokAtCont),
    ("tiktok.com/".data, groupPlus alnumChar),
    ("tiktok.com/t/".data, groupPlusThenLit alnumChar "/".data),
    ("m.tiktok.com/v/".data, groupPlusThenLit Char.isDigit ".html".data),
    ("rutube.ru/video/".data, groupPlus hexChar),
    ("rutube.ru/shorts/".data, groupPlus hexChar),
    ("rutube.ru/video/".data, groupPlusThenLit hexChar "?".data),
    ("rutube.ru/shorts/".data, groupPlusThenLit hexChar "?".data),
    ("vk.com/video".data, vkComposite),
    ("vk.com/vkvideo?z=video".data, vkComposite),
    ("vk.com/clip".data, vkComposite),
    ("vk.com/shvideo?".data, fun s => lazySearch "z=clip".data vkComposite s),
    ("vk.com/search/video?".data, fun s => lazySearch "z=video".data vkComposite s),
    ("vkvideo.ru/video".data, vkComposite),
    ("vkvideo.ru/playlist/".data, vkPlaylistCont) ]

/-- Try the patterns in priority order; first match wins. -/
def runPatterns : List (List Char × (List Char → Option (List Char))) →
    List Char → Option (List Char)
  | [], _ => none
  | (lit, k) :: rest, s =>
      match searchAux (litThen lit k) s with
      | some r => some r
      | none => runPatterns rest s

/-- `YouTubeService.extract_video_id` (youtube_service.py:34-69).
Total by construction: it never throws. -/
def extract_video_id (url : String) : Option String :=
  (runPatterns patterns url.data).map String.mk

/-- `YouTubeService.is_valid_url` (youtube_service.py:71-74). -/
def is_valid_url (url : String) : Bool := (extract_video_id url).isSome

example : extract_video_id "https://www.youtube.com/watch?v=dQw4w9WgXcQ" =
    some "dQw4w9WgXcQ" := by decide
example : extract_video_id "https://youtu.be/abc123XYZ_-" = some "abc123XYZ_-" := by decide
example : extract_video_id "https://www.tiktok.com/@user/video/7234567890123456789" =
    some "7234567890123456789" := by decide
example : extract_video_id "https://vm.tiktok.com/ZMhkqVm2p/" = some "ZMhkqVm2p" := by decide
example : extract_video_id "https://www.tiktok.com/t/ZTRab12cd/" = some "t" := by decide
example : extract_video_id "https://m.tiktok.com/v/1234567.html" = some "v" := by decide
example : extract_video_id "https://rutube.ru/video/0123456789abcdef/" =
    some "0123456789abcdef" := by decide
example : extract_video_id "https://rutube.ru/shorts/ab12?r=plwd" = some "ab12" := by decide
example : extract_video_id "https://vk.com/video-123456_789" = some "-123456_789" := by decide
example : extract_video_id "https://vk.com/clip12_34" = some "12_34" := by decide
example : extract_video_id "https://vk.com/vkvideo?z=video-1_2" = some "-1_2" := by decide
example : extract_video_id "https://vk.com/shvideo?a&z=clip-5_6" = some "-5_6" := by decide
example : extract_video_id "https://vk.com/search/video?q=cat&z=video7_8" =
    some "7_8" := by decide
example : extract_video_id "https://vkvideo.ru/video-9_10" = some "-9_10" := by decide
example : extract_video_id "https://vkvideo.ru/playlist/best/video-11_12" =
    some "-11_12" := by decide
example : extract_video_id "hello world" = none := by decide
example : extract_video_id "https://example.com/video/123" = none := by decide

/-! ## Data model

Mirrors `app/models` (Video / User / DownloadHistory, referenced from
`app/models/__init__.py`; the model modules themselves are not under the
provided sources, so field sets follow spec §3 restricted to the fields the
orchestration, statistics and cleanup code reads or writes).  Timestamps are
abstract `Nat` instants.  Fields no claim touches (titles, descriptions,
view counts, `available_formats`, upload dates) are omitted from the model;
the duration guard keeps the exact source shape. -/

/-- `DownloadStatus` enum (spec §4.3; `CANCELLED` reserved, unreachable). -/
inductive DownloadStatus where
  | pending
  | downloading
  | completed
  | failed
  | cancelled
deriving DecidableEq

structure Video where
  video_id : String
  url : String
  /-- `info.get("duration", 0)`; `none` stands for an absent/None duration. -/
  duration : Option Nat := none
  download_count : Nat := 0
  file_size : Option Nat := none
  quality : Option String := none
  format_id : Option String := none
deriving DecidableEq

structure User where
  id : Nat
  total_downloads : Nat := 0
  /-- aggregate downloaded bytes (spec §3 UserRecord). -/
  total_size : Nat := 0
deriving DecidableEq

structure DownloadHistory where
  id : Nat
  user_id : Option Nat := none
  video_id : String
  quality : String
  format_type : String
  status : DownloadStatus := .pending
  file_path : Option String := none
  telegram_file_id : Option String := none
  file_size : Option Nat := none
  error_message : Option String := none
  created_at : Nat := 0
deriving DecidableEq

/-- `app/config/settings.py` download limits (defaults from the source). -/
structure Settings where
  max_video_duration : Nat := 3600
  max_file_size : Nat := 50 * 1024 * 1024
deriving DecidableEq

/-- The persistent relational store, modelled as in-memory tables.  List
order is insertion order (the source never passes `order_by` to the queries
the claims concern). -/
structure DB where
  videos : List Video := []
  users : List User := []
  downloads : List DownloadHistory := []
  /-- generator for fresh `DownloadHistory` ids. -/
  nextId : Nat := 0
deriving DecidableEq

/-- Modelled from the spec: `DownloadHistory.mark_as_started`
(app/models/download_history.py is absent from the sources); spec §4.3(3a):
transition to `DOWNLOADING` (the start timestamp is not modelled). -/
def DownloadHistory.mark_as_started (d : DownloadHistory) : DownloadHistory :=
  { d with status := .downloading }

/-- Modelled from the spec: `DownloadHistory.mark_as_completed`; spec §4.3(3e):
transition to `COMPLETED` with `file_path` and `file_size` set. -/
def DownloadHistory.mark_as_completed (d : DownloadHistory)
    (path : String) (size : Nat) : DownloadHistory :=
  { d with status := .completed, file_path := some path, file_size := some size }

/-- Modelled from the spec: `DownloadHistory.mark_as_failed`; spec §4.3(3f):
transition to `FAILED` with `error_message` set to the cause. -/
def DownloadHistory.mark_as_failed (d : DownloadHistory) (msg : String) :
    DownloadHistory :=
  { d with status := .failed, error_message := some msg }

/-- Modelled from the spec: `Video.increment_download_count`; spec §3:
monotonically incremented per completed/reused download. -/
def Video.increment_download_count (v : Video) : Video :=
  { v with download_count := v.download_count + 1 }

/-- Modelled from the spec: `User.increment_downloads`; spec §3: bump the
user's aggregate download count and downloaded-bytes total. -/
def User.increment_downloads (u : User) (size : Nat) : User :=
  { u with total_downloads := u.total_downloads + 1, total_size := u.total_size + size }

/-- Persist a `DownloadHistory` row (`await download.save(...)`): replace the
row with the same id. -/
def DB.saveDownload (db : DB) (d : DownloadHistory) : DB :=
  { db with downloads := db.downloads.map fun x => if x.id == d.id then d else x }

/-- Update the video row with the given id. -/
def DB.updateVideo (db : DB) (vid : String) (f : Video → Video) : DB :=
  { db with videos := db.videos.map fun v => if v.video_id == vid then f v else v }

/-- Update the user row with the given id. -/
def DB.updateUser (db : DB) (uid : Nat) (f : User → User) : DB :=
  { db with users := db.users.map fun u => if u.id == uid then f u else u }

/-- `Video.get(video_id=...)` : lookup by unique video id. -/
def DB.getVideo (db : DB) (vid : String) : Option Video :=
  (db.videos.filter fun v => v.video_id == vid).head?

/-- `DownloadHistory.create(...)` : insert a fresh `PENDING` row. -/
def DB.createDownload (db : DB) (uid : Nat) (vid : String)
    (quality format_type : String) (now : Nat) : DB × DownloadHistory :=
  let d : DownloadHistory :=
    { id := db.nextId, user_id := some uid, video_id := vid,
      quality := quality, format_type := format_type,
      status := .pending, created_at := now }
  ({ db with downloads := db.downloads ++ [d], nextId := db.nextId + 1 }, d)

/-! ## External capabilities (spec §6) -/

/-- Result of one invocation of the external media-fetch capability
(`ydl.download` plus the subsequent temp-directory scan,
youtube_service.py:293-304): an extractor error, or the files (path, byte
size) it left in the attempt's temporary directory. -/
inductive FetchOutcome where
  | error (msg : String)
  | ok (files : List (String × Nat))
deriving DecidableEq

/-- Metadata returned by the external metadata-fetch capability
(`get_video_info`), restricted to the field the catalog's guards read. -/
structure VideoInfo where
  /-- `info.get("duration", 0)`; `none` stands for absent/None. -/
  duration : Option Nat := none
deriving DecidableEq

/-! ## Download orchestrator (`YouTubeService`, youtube_service.py) -/

/-- `YouTubeService.get_existing_download` (youtube_service.py:189-205):
first `COMPLETED` row for the `(video, quality, format_type)` tuple having a
non-null `file_path` or `telegram_file_id`. -/
def get_existing_download (db : DB) (video : Video)
    (quality format_type : String) : Option DownloadHistory :=
  (db.downloads.filter fun d =>
    d.video_id == video.video_id && d.quality == quality &&
    d.format_type == format_type && d.status == DownloadStatus.completed &&
    (d.file_path.isSome || d.telegram_file_id.isSome)).head?

/-- `YouTubeService.update_download_statistics` (youtube_service.py:331-334). -/
def update_download_statistics (db : DB) (vid : String) (uid : Nat)
    (file_size : Nat) : DB :=
  (db.updateVideo vid Video.increment_download_count).updateUser uid
    (fun u => u.increment_downloads file_size)

/-- The guarded body of `YouTubeService.start_new_download`
(youtube_service.py:255-323, the `try` block): mark started, check the
requested size against `settings.max_file_size` (the check precedes the
fetch), invoke the external fetch, locate the produced file (first file of
the temp directory), complete the record, update statistics and the video's
cached size/quality.  An `Except.error` is a raised exception. -/
def start_new_download_attempt (s : Settings) (db : DB)
    (download : DownloadHistory) (video : Video) (user : User)
    (quality format_type : String) (file_size : Nat) (fetch : FetchOutcome) :
    Except String (DB × DownloadHistory × Nat) :=
  let d1 := download.mark_as_started
  let db := db.saveDownload d1
  if file_size > s.max_file_size then
    -- youtube_service.py:289-290; the human-readable size suffix of the
    -- message is not modelled (no claim reads the message text).
    .error "Файл слишком большой"
  else
    match fetch with
    | .error msg => .error msg
    | .ok files =>
      match files with
      | [] => .error "Файл не был скачан"   -- youtube_service.py:300-301
      | f :: _ =>
        let d2 := d1.mark_as_completed f.1 f.2
        let db := db.saveDownload d2
        let db := update_download_statistics db video.video_id user.id f.2
        let db :=
          if video.file_size.isNone then
            db.updateVideo video.video_id fun v =>
              { v with file_size := some f.2, quality := some quality,
                       format_id := some format_type }
          else db
        .ok (db, d2, 1)

/-- `YouTubeService.start_new_download` (youtube_service.py:245-329): the
`try`/`except` wrapper.  Every failure is caught, recorded via
`mark_as_failed`, and the record is returned normally — the function is
total, nothing propagates.  The last component counts invocations of the
external media fetch. -/
def start_new_download (s : Settings) (db : DB)
    (download : DownloadHistory) (video : Video) (user : User)
    (quality format_type : String) (file_size : Nat) (fetch : FetchOutcome) :
    DB × DownloadHistory × Nat :=
  match start_new_download_attempt s db download video user quality format_type
      file_size fetch with
  | .ok r => r
  | .error msg =>
    let d1 := download.mark_as_started
    let db := db.saveDownload d1
    let d2 := d1.mark_as_failed msg
    -- the fetch ran exactly when the failure arose past the size guard
    let fetched := if file_size > s.max_file_size then 0 else 1
    (db.saveDownload d2, d2, fetched)

/-- `YouTubeService.download_video` (youtube_service.py:207-243): create the
per-attempt `PENDING` row; if a reusable completed download exists, copy its
remote reference / status / size onto the new row, update statistics with
the caller-supplied `file_size`, and return the existing row with no fetch;
otherwise run a fresh download.  Last component counts media-fetch
invocations. -/
def download_video (s : Settings) (db : DB) (video : Video) (user : User)
    (existing_download : Option DownloadHistory)
    (quality format_type : String) (file_size : Nat) (fetch : FetchOutcome)
    (now : Nat) : DB × DownloadHistory × Nat :=
  let (db, download) :=
    db.createDownload user.id video.video_id quality format_type now
  match existing_download with
  | some ex =>
    let d2 := { download with
      telegram_file_id := ex.telegram_file_id,
      status := ex.status,
      file_size := ex.file_size }
    let db := db.saveDownload d2
    let db := update_download_statistics db video.video_id user.id file_size
    (db, ex, 0)
  | none =>
    start_new_download s db download video user quality format_type file_size fetch

/-- `YouTubeService.get_or_create_video` (youtube_service.py:100-159):
resolve the id, return a stored record immediately when present, otherwise
consult the external metadata fetch (`info`; `none` is a fetch failure),
reject durations above `settings.max_video_duration`, else persist.  The
last component counts metadata-fetch invocations.
The duration guard `if duration and duration > settings.max_video_duration`
is `info.duration.getD 0 > max` (Python falsiness of `0`/`None` coincides
with `getD 0` here).  Metadata fields no claim reads (title, formats,
upload date, …) are not modelled. -/
def get_or_create_video (s : Settings) (db : DB) (url : String)
    (info : Option VideoInfo) : DB × Option Video × Nat :=
  match extract_video_id url with
  | none => (db, none, 0)
  | some vid =>
    match db.getVideo vid with
    | some v => (db, some v, 0)
    | none =>
      match info with
      | none => (db, none, 1)
      | some i =>
        if i.duration.getD 0 > s.max_video_duration then (db, none, 1)
        else
          let v : Video := { video_id := vid, url := url, duration := i.duration }
          ({ db with videos := db.videos ++ [v] }, some v, 1)

/-! ## Filesystem and cleanup (`app/utils/funcs.py`) -/

/-- `os.path.dirname` for POSIX paths: everything up to the last `/`, with
trailing slashes stripped unless the head is all slashes. -/
def dirname (p : String) : String :=
  let l := p.data
  let suffixLen := (l.reverse.takeWhile fun c => !(c == '/')).length
  let head := l.take (l.length - suffixLen)
  if head.isEmpty || head.all (fun c => c == '/') then ⟨head⟩
  else ⟨(head.reverse.dropWhile fun c => c == '/').reverse⟩

/-- The filesystem as seen through the `aiofiles.os` calls the cleanup code
makes: existing files (with sizes) and existing directories. -/
structure FS where
  files : List (String × Nat) := []
  dirs : List String := []
deriving DecidableEq

def FS.existsFile (fs : FS) (p : String) : Bool := fs.files.any fun f => f.1 == p

def FS.removeFile (fs : FS) (p : String) : FS :=
  { fs with files := fs.files.filter fun f => !(f.1 == p) }

def FS.existsDir (fs : FS) (d : String) : Bool := fs.dirs.any fun x => x == d

/-- `not await aio_os.listdir(parent)`: the directory has no remaining
entries (files or subdirectories whose dirname is `parent`). -/
def FS.listdirEmpty (fs : FS) (d : String) : Bool :=
  !(fs.files.any fun f => dirname f.1 == d) && !(fs.dirs.any fun x => dirname x == d)

def FS.rmdir (fs : FS) (d : String) : FS :=
  { fs with dirs := fs.dirs.filter fun x => !(x == d) }

/-- The cleanup query filter (funcs.py:53-56): `COMPLETED` rows with a
non-null `file_path`. -/
def cleanupTarget (d : DownloadHistory) : Bool :=
  d.status == DownloadStatus.completed && d.file_path.isSome

/-- One iteration of the cleanup loop body (funcs.py:58-74): delete the
file if it exists, drop the now-empty parent directory, null the record's
`file_path`, bump the counter.  Per-file I/O failures are caught and
skipped in the source; I/O is modelled as succeeding. -/
def cleanupOne (acc : DB × FS × Nat) (d : DownloadHistory) : DB × FS × Nat :=
  match d.file_path with
  | none => acc
  | some p =>
    if acc.2.1.existsFile p then
      let fs1 := acc.2.1.removeFile p
      let parent := dirname p
      let fs2 :=
        if fs1.existsDir parent && fs1.listdirEmpty parent then fs1.rmdir parent
        else fs1
      (acc.1.saveDownload { d with file_path := none }, fs2, acc.2.2 + 1)
    else acc

/-- `cleanup_all_files` (funcs.py:49-77; the identical
`YouTubeService.cleanup_all_files`, youtube_service.py:359-388): iterate
over the snapshot of `COMPLETED` rows with non-null `file_path`, delete
each existing file, null the row's `file_path`, and return the count. -/
def cleanup_all_files (db : DB) (fs : FS) : DB × FS × Nat :=
  let old_downloads := db.downloads.filter cleanupTarget
  old_downloads.foldl cleanupOne (db, fs, 0)

/-- One iteration of `cleanup_scheduler` (funcs.py:86-95): the loop body
calls `cleanup_all_files()` unconditionally and sleeps; no filesystem-usage
probe is consulted (`async_disk_usage` is defined but never called). -/
def cleanup_scheduler_iteration (db : DB) (fs : FS) : DB × FS × Nat :=
  cleanup_all_files db fs

/-! ## Statistics (`get_download_stats`, `generate_stats_file`) -/

/-- Insertion sort, descending by the key — models
`Video.all().order_by("-download_count")`. -/
def insertDescBy (key : Video → Nat) (v : Video) : List Video → List Video
  | [] => [v]
  | w :: ws => if key w < key v then v :: w :: ws else w :: insertDescBy key v ws

def sortDescBy (key : Video → Nat) : List Video → List Video
  | [] => []
  | v :: vs => insertDescBy key v (sortDescBy key vs)

structure DownloadStats where
  total_downloads : Nat
  completed_downloads : Nat
  failed_downloads : Nat
  success_rate : ℚ
  today_downloads : Nat
  popular_videos : List Video
deriving DecidableEq

/-- `YouTubeService.get_download_stats` (youtube_service.py:390-424).
`today` is the local-midnight instant used for `created_at__gte=today`. -/
def get_download_stats (db : DB) (today : Nat) : DownloadStats :=
  let total := db.downloads.length
  let completed :=
    (db.downloads.filter fun d => d.status == DownloadStatus.completed).length
  let failed :=
    (db.downloads.filter fun d => d.status == DownloadStatus.failed).length
  let todayCount := (db.downloads.filter fun d => decide (d.created_at ≥ today)).length
  { total_downloads := total
    completed_downloads := completed
    failed_downloads := failed
    success_rate := if total > 0 then (completed : ℚ) / (total : ℚ) * 100 else 0
    today_downloads := todayCount
    popular_videos := (sortDescBy Video.download_count db.videos).take 10 }

/-- One per-user bucket of the 30-day report (funcs.py:121-134). -/
structure UserBucket where
  total : Nat := 0
  completed : Nat := 0
  failed : Nat := 0
deriving DecidableEq

/-- Add one download to its bucket: `total` always, `completed`/`failed` per
status (other statuses only count towards `total`). -/
def UserBucket.add (b : UserBucket) (st : DownloadStatus) : UserBucket :=
  { b with
    total := b.total + 1
    completed := if st = .completed then b.completed + 1 else b.completed
    failed := if st = .failed then b.failed + 1 else b.failed }

/-- Python-dict grouping with insertion order: update the existing key or
append a fresh zero-initialised bucket (funcs.py:110-134).  The key is the
owning user id, `none` for the synthetic anonymous bucket. -/
def addToBuckets : List (Option Nat × UserBucket) → Option Nat → DownloadStatus →
    List (Option Nat × UserBucket)
  | [], uid, st => [(uid, UserBucket.add {} st)]
  | (k, b) :: rest, uid, st =>
    if k = uid then (k, b.add st) :: rest
    else (k, b) :: addToBuckets rest uid st

/-- Per-bucket success rate as rendered by the report (funcs.py:151-153). -/
def bucketRate (b : UserBucket) : ℚ :=
  if b.total > 0 then (b.completed : ℚ) / (b.total : ℚ) * 100 else 0

/-- The numeric core of `generate_stats_file` (funcs.py:98-185): group the
trailing-window downloads (`created_at ≥ cutoff`) by owning user, and
compute the grand totals and overall success rate of funcs.py:159-164.
The textual rendering and the by-total sort of the buckets are not
modelled (they do not change any number the claims mention). -/
def generate_stats (db : DB) (cutoff : Nat) :
    List (Option Nat × UserBucket) × Nat × Nat × Nat × ℚ :=
  let window := db.downloads.filter fun d => decide (d.created_at ≥ cutoff)
  let buckets := window.foldl (fun acc d => addToBuckets acc d.user_id d.status) []
  let total : Nat := (buckets.map fun p => p.2.total).sum
  let completed : Nat := (buckets.map fun p => p.2.completed).sum
  let failed : Nat := (buckets.map fun p => p.2.failed).sum
  let rate := if total > 0 then (completed : ℚ) / (total : ℚ) * 100 else 0
  (buckets, total, completed, failed, rate)

/-! ## Resolver lemma machinery

General lemmas about `isPre`, `containsSub`, `searchAux` and the capture
continuations, used to settle the universally-quantified URL-shape claims. -/

theorem isPre_self_append (l t : List Char) : isPre l (l ++ t) = true := by
  induction l with
  | nil => rfl
  | cons a as ih => simp [isPre, ih]

theorem drop_len_append (l t : List Char) : (l ++ t).drop l.length = t := by
  induction l with
  | nil => rfl
  | cons a as ih => simp [ih]

theorem drop_append_le (i : Nat) (l t : List Char) (h : i ≤ l.length) :
    (l ++ t).drop i = l.drop i ++ t := by
  induction l generalizing i with
  | nil =>
    have : i = 0 := Nat.le_zero.mp h
    subst this; rfl
  | cons a as ih =>
    cases i with
    | zero => rfl
    | succ j => simpa using ih j (Nat.succ_le_succ_iff.mp h)

theorem isPre_append_false (lit x v : List Char) (h : isPre lit x = false)
    (hl : lit.length ≤ x.length) : isPre lit (x ++ v) = false := by
  induction lit generalizing x with
  | nil => simp [isPre] at h
  | cons a as ih =>
    cases x with
    | nil => simp at hl
    | cons b bs =>
      show (a == b && isPre as (bs ++ v)) = false
      have h2 : (a == b && isPre as bs) = false := h
      cases hab : (a == b) with
      | false => simp [hab]
      | true =>
        rw [hab] at h2
        simp only [Bool.true_and] at h2
        simp [hab, ih bs h2 (Nat.succ_le_succ_iff.mp hl)]

theorem takeWhileAll (P : Char → Bool) (v : List Char)
    (h : ∀ c ∈ v, P c = true) : v.takeWhile P = v := by
  induction v with
  | nil => rfl
  | cons a t ih =>
    have ha : P a = true := h a (List.mem_cons_self a t)
    simp [List.takeWhile_cons, ha, ih fun c hc => h c (List.mem_cons_of_mem a hc)]

theorem takeWhileStop (P : Char → Bool) (v : List Char) (c : Char) (t : List Char)
    (hv : ∀ a ∈ v, P a = true) (hc : P c = false) :
    (v ++ c :: t).takeWhile P = v := by
  induction v with
  | nil => simp [List.takeWhile_cons, hc]
  | cons a w ih =>
    have ha : P a = true := hv a (List.mem_cons_self a w)
    simp [List.takeWhile_cons, ha,
      ih fun x hx => hv x (List.mem_cons_of_mem a hx)]

theorem searchAux_step_some (step : List Char → Option (List Char))
    (s g : List Char) (h : step s = some g) : searchAux step s = some g := by
  cases s <;> simp [searchAux, h]

theorem searchNone (lit : List Char) (k : List Char → Option (List Char))
    (s : List Char) (h : containsSub lit s = false) :
    searchAux (litThen lit k) s = none := by
  induction s with
  | nil =>
    have h0 : isPre lit [] = false := h
    simp [searchAux, litThen, h0]
  | cons c rest ih =>
    have h2 : (isPre lit (c :: rest) || containsSub lit rest) = false := h
    rw [Bool.or_eq_false_iff] at h2
    simp [searchAux, litThen, h2.1, ih h2.2]

theorem isPreSubClass (l0 : List Char) (c : Char) (v : List Char)
    (P : Char → Bool) (hv : ∀ a ∈ v, P a = true) (hc : P c = false) :
    isPre (l0 ++ [c]) v = false := by
  induction l0 generalizing v with
  | nil =>
    cases v with
    | nil => rfl
    | cons a t =>
      show (c == a && isPre [] t) = false
      have : c ≠ a := by
        intro h
        subst h
        exact absurd (hv c (List.mem_cons_self c t)) (by simp [hc])
      simp [this]
  | cons d l0t ih =>
    cases v with
    | nil => rfl
    | cons a t =>
      show (d == a && isPre (l0t ++ [c]) t) = false
      simp [ih t fun x hx => hv x (List.mem_cons_of_mem a hx)]

theorem isPreAppendClass (l0 : List Char) (c : Char) (y v : List Char)
    (P : Char → Bool) (hv : ∀ a ∈ v, P a = true) (hc : P c = false)
    (hy : isPre (l0 ++ [c]) y = false) : isPre (l0 ++ [c]) (y ++ v) = false := by
  induction l0 generalizing y with
  | nil =>
    cases y with
    | nil => simpa using isPreSubClass [] c v P hv hc
    | cons a t =>
      have h1 : (c == a && isPre [] t) = false := hy
      have h2 : (c == a) = false := by
        cases hca : (c == a) with
        | false => rfl
        | true => rw [hca] at h1; simp [isPre] at h1
      show (c == a && isPre [] (t ++ v)) = false
      simp [h2]
  | cons d l0t ih =>
    cases y with
    | nil => simpa using isPreSubClass (d :: l0t) c v P hv hc
    | cons a t =>
      have h1 : (d == a && isPre (l0t ++ [c]) t) = false := hy
      show (d == a && isPre (l0t ++ [c]) (t ++ v)) = false
      cases hda : (d == a) with
      | false => simp [hda]
      | true =>
        rw [hda] at h1
        simp only [Bool.true_and] at h1
        simp [hda, ih t h1]

theorem containsSubClass (l0 : List Char) (c : Char) (v : List Char)
    (P : Char → Bool) (hv : ∀ a ∈ v, P a = true) (hc : P c = false) :
    containsSub (l0 ++ [c]) v = false := by
  induction v with
  | nil => cases l0 <;> rfl
  | cons a t ih =>
    show (isPre (l0 ++ [c]) (a :: t) || containsSub (l0 ++ [c]) t) = false
    rw [isPreSubClass l0 c (a :: t) P hv hc,
      ih fun x hx => hv x (List.mem_cons_of_mem a hx)]
    rfl

/-- Appending a string of class-`P` characters on the right cannot create an
occurrence of a literal whose last character falls outside `P`. -/
theorem peelR (lit l0 : List Char) (c : Char) (x v : List Char)
    (P : Char → Bool) (hsplit : lit = l0 ++ [c]) (hc : P c = false)
    (hv : ∀ a ∈ v, P a = true) (hx : containsSub lit x = false) :
    containsSub lit (x ++ v) = false := by
  subst hsplit
  induction x with
  | nil => simpa using containsSubClass l0 c v P hv hc
  | cons b xt ih =>
    have h2 : (isPre (l0 ++ [c]) (b :: xt) || containsSub (l0 ++ [c]) xt) = false := hx
    rw [Bool.or_eq_false_iff] at h2
    show (isPre (l0 ++ [c]) ((b :: xt) ++ v) || containsSub (l0 ++ [c]) (xt ++ v)) = false
    rw [isPreAppendClass l0 c (b :: xt) v P hv hc h2.1, ih h2.2]
    rfl

theorem isPreMem (lit s : List Char) (h : isPre lit s = true) :
    ∀ a ∈ lit, a ∈ s := by
  induction lit generalizing s with
  | nil => intro a ha; cases ha
  | cons x xt ih =>
    cases s with
    | nil => cases h
    | cons b bs =>
      have h2 : (x == b && isPre xt bs) = true := h
      rw [Bool.and_eq_true] at h2
      intro a ha
      rcases List.mem_cons.mp ha with rfl | ha2
      · exact (beq_iff_eq.mp h2.1) ▸ List.mem_cons_self b bs
      · exact List.mem_cons_of_mem b (ih bs h2.2 a ha2)

theorem containsSubMem (lit s : List Char) (h : containsSub lit s = true) :
    ∀ a ∈ lit, a ∈ s := by
  induction s with
  | nil =>
    cases lit with
    | nil => intro a ha; cases ha
    | cons x xt => cases h
  | cons b bs ih =>
    have h2 : (isPre lit (b :: bs) || containsSub lit bs) = true := h
    rcases Bool.or_eq_true_iff.mp h2 with h3 | h3
    · exact isPreMem lit (b :: bs) h3
    · exact fun a ha => List.mem_cons_of_mem b (ih h3 a ha)

/-- A literal containing a character absent from `s` cannot occur in `s`. -/
theorem charMissing (lit s : List Char) (c : Char) (hc : c ∈ lit)
    (hs : ∀ a ∈ s, a ≠ c) : containsSub lit s = false := by
  cases h : containsSub lit s with
  | false => rfl
  | true => exact absurd rfl (hs c (containsSubMem lit s h c hc))

theorem isPreExists (lit s : List Char) (h : isPre lit s = true) :
    ∃ t, s = lit ++ t := by
  induction lit generalizing s with
  | nil => exact ⟨s, rfl⟩
  | cons x xt ih =>
    cases s with
    | nil => cases h
    | cons b bs =>
      have h2 : (x == b && isPre xt bs) = true := h
      rw [Bool.and_eq_true] at h2
      obtain ⟨t, ht⟩ := ih bs h2.2
      exact ⟨t, by rw [beq_iff_eq.mp h2.1]; simp [ht]⟩

theorem containsSubExists (lit s : List Char) (h : containsSub lit s = true) :
    ∃ x y, s = x ++ (lit ++ y) := by
  induction s with
  | nil =>
    cases lit with
    | nil => exact ⟨[], [], rfl⟩
    | cons a t => cases h
  | cons b bs ih =>
    have h2 : (isPre lit (b :: bs) || containsSub lit bs) = true := h
    rcases Bool.or_eq_true_iff.mp h2 with h3 | h3
    · obtain ⟨t, ht⟩ := isPreExists lit (b :: bs) h3
      exact ⟨[], t, by simpa using ht⟩
    · obtain ⟨x, y, hxy⟩ := ih h3
      exact ⟨b :: x, y, by simp [hxy]⟩

theorem containsSubOfIsPre (lit s : List Char) (h : isPre lit s = true) :
    containsSub lit s = true := by
  cases s with
  | nil => exact h
  | cons b bs =>
    show (isPre lit (b :: bs) || containsSub lit bs) = true
    rw [h, Bool.true_or]

theorem containsSubDecomp (x lit y : List Char) :
    containsSub lit (x ++ (lit ++ y)) = true := by
  induction x with
  | nil =>
    rw [List.nil_append]
    exact containsSubOfIsPre lit (lit ++ y) (isPre_self_append lit y)
  | cons b xt ih =>
    show (isPre lit (b :: (xt ++ (lit ++ y))) || containsSub lit (xt ++ (lit ++ y))) = true
    rw [ih, Bool.or_true]

theorem containsSubTrans (a b cs : List Char) (hab : containsSub a b = true)
    (hbc : containsSub b cs = true) : containsSub a cs = true := by
  obtain ⟨x, y, hxy⟩ := containsSubExists a b hab
  obtain ⟨u, w, huw⟩ := containsSubExists b cs hbc
  subst hxy
  have : cs = (u ++ x) ++ (a ++ (y ++ w)) := by simp [huw]
  rw [this]
  exact containsSubDecomp (u ++ x) a (y ++ w)

/-- A pattern whose core literal contains `dom` cannot match a string not
containing `dom`. -/
theorem searchNoneDom (dom lit : List Char) (k : List Char → Option (List Char))
    (s : List Char) (hdl : containsSub dom lit = true)
    (hds : containsSub dom s = false) :
    searchAux (litThen lit k) s = none := by
  apply searchNone
  cases h : containsSub lit s with
  | false => rfl
  | true => rw [containsSubTrans dom lit s hdl h] at hds; cases hds

/-- Leftmost-match computation: if the literal fails to match at every
position strictly inside `junk`, the search lands exactly after `junk`. -/
theorem searchHit (junk lit tail : List Char)
    (k : List Char → Option (List Char)) (g : List Char)
    (hearly : ∀ i, i < junk.length →
      isPre lit ((junk ++ (lit ++ tail)).drop i) = false)
    (hk : k tail = some g) :
    searchAux (litThen lit k) (junk ++ (lit ++ tail)) = some g := by
  induction junk with
  | nil =>
    simp only [List.nil_append]
    apply searchAux_step_some
    simp [litThen, isPre_self_append, drop_len_append, hk]
  | cons c junkt ih =>
    have h0 : isPre lit (c :: (junkt ++ (lit ++ tail))) = false := by
      have := hearly 0 (Nat.succ_pos _)
      simpa using this
    show searchAux _ (c :: (junkt ++ (lit ++ tail))) = some g
    rw [searchAux]
    simp only [litThen, h0, if_false]
    exact ih fun i hi => by
      have := hearly (i + 1) (Nat.succ_lt_succ hi)
      simpa using this

theorem earlyFailAppend (conc v lit : List Char) (n : Nat)
    (hn : n + lit.length ≤ conc.length)
    (h : ∀ i, i < n → isPre lit (conc.drop i) = false) :
    ∀ i, i < n → isPre lit ((conc ++ v).drop i) = false := by
  intro i hi
  rw [drop_append_le i conc v (by omega)]
  apply isPre_append_false lit (conc.drop i) v (h i hi)
  simp only [List.length_drop]
  omega

theorem runSkip (lit : List Char) (k : List Char → Option (List Char))
    (rest : List (List Char × (List Char → Option (List Char)))) (s : List Char)
    (h : searchAux (litThen lit k) s = none) :
    runPatterns ((lit, k) :: rest) s = runPatterns rest s := by
  simp [runPatterns, h]

theorem runHit (lit : List Char) (k : List Char → Option (List Char))
    (rest : List (List Char × (List Char → Option (List Char)))) (s : List Char)
    (g : List Char) (h : searchAux (litThen lit k) s = some g) :
    runPatterns ((lit, k) :: rest) s = some g := by
  simp [runPatterns, h]

theorem notEmpty (v : List Char) (h : v ≠ []) : v.isEmpty = false := by
  cases v with
  | nil => exact absurd rfl h
  | cons a t => rfl

theorem groupPlusEval (P : Char → Bool) (v post : List Char) (hne : v ≠ [])
    (hv : ∀ c ∈ v, P c = true)
    (hpost : post = [] ∨ ∃ c t, post = c :: t ∧ P c = false) :
    groupPlus P (v ++ post) = some v := by
  have htw : (v ++ post).takeWhile P = v := by
    rcases hpost with rfl | ⟨c, t, rfl, hc⟩
    · rw [List.append_nil]; exact takeWhileAll P v hv
    · exact takeWhileStop P v c t hv hc
  simp [groupPlus, htw, notEmpty v hne]

theorem groupPlusExact (P : Char → Bool) (v : List Char) (hne : v ≠ [])
    (hv : ∀ c ∈ v, P c = true) : groupPlus P v = some v := by
  have := groupPlusEval P v [] hne hv (Or.inl rfl)
  simpa using this

theorem digitNotDash (a : Char) (ha : Char.isDigit a = true) : (a == '-') = false := by
  cases h : (a == '-') with
  | false => rfl
  | true =>
    rw [beq_iff_eq.mp h] at ha
    cases ha

/-- Evaluation of the VK `(-?\d+_\d+)` capture on a well-formed composite. -/
theorem vkCompositeEval (neg : Bool) (d1 d2 : List Char)
    (h1ne : d1 ≠ []) (h2ne : d2 ≠ [])
    (h1 : ∀ c ∈ d1, Char.isDigit c = true) (h2 : ∀ c ∈ d2, Char.isDigit c = true) :
    vkComposite ((if neg then ['-'] else []) ++ (d1 ++ '_' :: d2)) =
      some ((if neg then ['-'] else []) ++ d1 ++ '_' :: d2) := by
  obtain ⟨a, d1t, rfl⟩ := List.exists_cons_of_ne_nil h1ne
  have ha : Char.isDigit a = true := h1 a (List.mem_cons_self a d1t)
  have h1t : ∀ c ∈ d1t, Char.isDigit c = true :=
    fun c hc => h1 c (List.mem_cons_of_mem a hc)
  have htw : ((a :: d1t) ++ '_' :: d2).takeWhile Char.isDigit = a :: d1t :=
    takeWhileStop Char.isDigit (a :: d1t) '_' d2 h1 (by decide)
  have htw2 : d2.takeWhile Char.isDigit = d2 := takeWhileAll Char.isDigit d2 h2
  have hdrop : ((a :: d1t) ++ '_' :: d2).drop (a :: d1t).length = '_' :: d2 :=
    drop_len_append (a :: d1t) ('_' :: d2)
  cases neg with
  | false =>
    have hneg : (((a :: d1t) ++ '_' :: d2).head? == some '-') = false := by
      show (a == '-') = false
      exact digitNotDash a ha
    show vkComposite ((a :: d1t) ++ '_' :: d2) = some ([] ++ (a :: d1t) ++ '_' :: d2)
    unfold vkComposite
    rw [hneg]
    simp only [if_false, Bool.false_eq_true, ite_false, htw, hdrop]
    simp [htw2, h2ne]
  | true =>
    show vkComposite ('-' :: ((a :: d1t) ++ '_' :: d2)) =
      some (['-'] ++ (a :: d1t) ++ '_' :: d2)
    have hneg : (('-' :: ((a :: d1t) ++ '_' :: d2)).head? == some '-') = true := by
      show ('-' == '-') = true
      decide
    unfold vkComposite
    rw [hneg]
    simp only [eq_self_iff_true, ite_true, List.tail_cons, htw, hdrop]
    simp [htw2, h2ne]

/-- Evaluation of the TikTok `@user/video/(\d+)` continuation. -/
theorem tiktokAtContEval (u d : List Char) (hu : u ≠ [])
    (huC : ∀ c ∈ u, (c == '/') = false) (hd : d ≠ [])
    (hdC : ∀ c ∈ d, Char.isDigit c = true) :
    tiktokAtCont (u ++ '/' :: ("video/".data ++ d)) = some d := by
  have htw : (u ++ '/' :: ("video/".data ++ d)).takeWhile (fun c => !(c == '/')) = u := by
    apply takeWhileStop _ u '/' ("video/".data ++ d) _ (by decide)
    intro a haU
    simp [huC a haU]
  have hdrop : (u ++ '/' :: ("video/".data ++ d)).drop u.length =
      '/' :: ("video/".data ++ d) := drop_len_append u _
  have hshape : '/' :: ("video/".data ++ d) = "/video/".data ++ d := rfl
  have hpre : isPre "/video/".data ('/' :: ("video/".data ++ d)) = true := by
    rw [hshape]; exact isPre_self_append _ _
  have hdrop7 : ('/' :: ("video/".data ++ d)).drop 7 = d := by
    rw [hshape]
    exact drop_len_append "/video/".data d
  unfold tiktokAtCont
  simp only [htw, hdrop, hpre, hdrop7, notEmpty u hu]
  simp [groupPlusExact Char.isDigit d hd hdC]

/-- Evaluation of the VK playlist `[^/]+/video(-?\d+_\d+)` continuation. -/
theorem vkPlaylistContEval (p comp g : List Char) (hp : p ≠ [])
    (hpC : ∀ c ∈ p, (c == '/') = false)
    (hcomp : vkComposite comp = some g) :
    vkPlaylistCont (p ++ '/' :: ("video".data ++ comp)) = some g := by
  have htw : (p ++ '/' :: ("video".data ++ comp)).takeWhile (fun c => !(c == '/')) = p := by
    apply takeWhileStop _ p '/' ("video".data ++ comp) _ (by decide)
    intro a haP
    simp [hpC a haP]
  have hdrop : (p ++ '/' :: ("video".data ++ comp)).drop p.length =
      '/' :: ("video".data ++ comp) := drop_len_append p _
  have hshape : '/' :: ("video".data ++ comp) = "/video".data ++ comp := rfl
  have hpre : isPre "/video".data ('/' :: ("video".data ++ comp)) = true := by
    rw [hshape]; exact isPre_self_append _ _
  have hdrop6 : ('/' :: ("video".data ++ comp)).drop 6 = comp := by
    rw [hshape]
    exact drop_len_append "/video".data comp
  unfold vkPlaylistCont
  simp only [htw, hdrop, hpre, hdrop6, notEmpty p hp]
  simp [hcomp]

theorem lazyStepSome (lit : List Char) (k : List Char → Option (List Char))
    (s g : List Char) (h : litThen lit k s = some g) :
    lazySearch lit k s = some g := by
  cases s <;> simp [lazySearch, h]

/-- Leftmost-match computation for the lazy `.*?lit` gap. -/
theorem lazySearchHit (gap lit tail : List Char)
    (k : List Char → Option (List Char)) (g : List Char)
    (hearly : ∀ i, i < gap.length →
      isPre lit ((gap ++ (lit ++ tail)).drop i) = false)
    (hnl : ∀ c ∈ gap, (c == '\n') = false)
    (hk : k tail = some g) :
    lazySearch lit k (gap ++ (lit ++ tail)) = some g := by
  induction gap with
  | nil =>
    simp only [List.nil_append]
    apply lazyStepSome
    simp [litThen, isPre_self_append, drop_len_append, hk]
  | cons c gapt ih =>
    have h0 : isPre lit (c :: (gapt ++ (lit ++ tail))) = false := by
      have := hearly 0 (Nat.succ_pos _)
      simpa using this
    have hc : (c == '\n') = false := hnl c (List.mem_cons_self c gapt)
    show lazySearch _ _ (c :: (gapt ++ (lit ++ tail))) = some g
    rw [lazySearch]
    simp only [litThen, h0, if_false, hc]
    exact ih (fun i hi => by
      have := hearly (i + 1) (Nat.succ_lt_succ hi)
      simpa using this)
      (fun x hx => hnl x (List.mem_cons_of_mem c hx))

/-! ## Per-shape resolution lemmas

One lemma per supported URL shape, quantified over the id payload; they are
assembled into the C9 claim theorem below.  `patternHit` places the
leftmost match just past the concrete prefix; `skipLit` / `skipChar`
discharge the earlier patterns in the priority list. -/

/-- The character class of a well-formed VK composite id `-?\d+_\d+`. -/
def vkClass (c : Char) : Bool := Char.isDigit c || c == '-' || c == '_'

theorem classNe (P : Char → Bool) (a c : Char) (ha : P a = true)
    (hc : P c = false) : a ≠ c := by
  intro h
  subst h
  rw [ha] at hc
  cases hc

theorem vkClassAll (neg : Bool) (d1 d2 : List Char)
    (h1 : ∀ c ∈ d1, Char.isDigit c = true)
    (h2 : ∀ c ∈ d2, Char.isDigit c = true) :
    ∀ a ∈ ((if neg then ['-'] else []) ++ (d1 ++ '_' :: d2)), vkClass a = true := by
  intro a ha
  rcases List.mem_append.mp ha with h | h
  · cases neg with
    | false => cases h
    | true =>
      rcases List.mem_cons.mp h with rfl | h2x
      · decide
      · cases h2x
  · rcases List.mem_append.mp h with h | h
    · simp [vkClass, h1 a h]
    · rcases List.mem_cons.mp h with rfl | h3
      · decide
      · simp [vkClass, h2 a h3]

/-- The pattern whose core sits right after `junk` matches there and nowhere
earlier. -/
theorem patternHit (junk lit tail g : List Char)
    (k : List Char → Option (List Char))
    (hfail : ∀ i, i < junk.length → isPre lit ((junk ++ lit).drop i) = false)
    (hk : k tail = some g) :
    searchAux (litThen lit k) ((junk ++ lit) ++ tail) = some g := by
  rw [List.append_assoc]
  apply searchHit junk lit tail k g _ hk
  intro i hi
  rw [← List.append_assoc]
  exact earlyFailAppend (junk ++ lit) tail lit junk.length
    (by simp [List.length_append]) hfail i hi

/-- Skip the head pattern of the priority list and continue. -/
theorem runSkipT (lit : List Char) (k : List Char → Option (List Char))
    (rest : List (List Char × (List Char → Option (List Char)))) (s : List Char)
    (r : Option (List Char))
    (h : searchAux (litThen lit k) s = none)
    (hrest : runPatterns rest s = r) :
    runPatterns ((lit, k) :: rest) s = r := by
  rw [runSkip _ _ _ _ h, hrest]

/-- An earlier pattern fails on `conc ++ tail` when its core is not in the
concrete part and ends in a character outside the id class of `tail`. -/
theorem skipLit (lit l0 : List Char) (c : Char) (P : Char → Bool)
    (conc tail : List Char) (k : List Char → Option (List Char))
    (h1 : lit = l0 ++ [c]) (h2 : P c = false)
    (h3 : containsSub lit conc = false)
    (htail : ∀ a ∈ tail, P a = true) :
    searchAux (litThen lit k) (conc ++ tail) = none :=
  searchNone lit k (conc ++ tail) (peelR lit l0 c conc tail P h1 h2 htail h3)

/-- An earlier pattern fails when its core needs a character the whole
input lacks. -/
theorem skipChar (lit : List Char) (ch : Char) (s : List Char)
    (k : List Char → Option (List Char)) (hch : ch ∈ lit)
    (hs : ∀ a ∈ s, a ≠ ch) :
    searchAux (litThen lit k) s = none :=
  searchNone lit k s (charMissing lit s ch hch hs)

theorem resolveYtWatch (v : List Char) (hne : v ≠ [])
    (hv : ∀ c ∈ v, idChar c = true) :
    extract_video_id ⟨"https://www.youtube.com/watch?v=".data ++ v⟩ =
      some ⟨v⟩ := by
  have hcat : ("https://www.".data ++ "youtube.com/watch?v=".data : List Char) =
    "https://www.youtube.com/watch?v=".data := by decide
  have hrun : runPatterns patterns ("https://www.youtube.com/watch?v=".data ++ v) =
      some v := by
    rw [← hcat]
    exact runHit _ _ _ _ v
      (patternHit "https://www.".data "youtube.com/watch?v=".data v v _
        (by decide) (groupPlusExact idChar v hne hv))
  show (runPatterns patterns ("https://www.youtube.com/watch?v=".data ++ v)).map
      String.mk = some ⟨v⟩
  rw [hrun]
  rfl

theorem resolveYtBe (v : List Char) (hne : v ≠ [])
    (hv : ∀ c ∈ v, idChar c = true) :
    extract_video_id ⟨"https://youtu.be/".data ++ v⟩ = some ⟨v⟩ := by
  have hcat : ("https://".data ++ "youtu.be/".data : List Char) =
    "https://youtu.be/".data := by decide
  have hhit : searchAux (litThen "youtu.be/".data (groupPlus idChar))
      ("https://youtu.be/".data ++ v) = some v := by
    rw [← hcat]
    exact patternHit "https://".data "youtu.be/".data v v _
      (by decide) (groupPlusExact idChar v hne hv)
  have hrun : runPatterns patterns ("https://youtu.be/".data ++ v) = some v := by
    refine runSkipT _ _ _ _ _ (skipLit "youtube.com/watch?v=".data
      "youtube.com/watch?v".data '=' idChar "https://youtu.be/".data v _
      (by decide) (by decide) (by decide) hv) ?_
    exact runHit _ _ _ _ _ hhit
  show (runPatterns patterns ("https://youtu.be/".data ++ v)).map
      String.mk = some ⟨v⟩
  rw [hrun]
  rfl

theorem resolveYtEmbed (v : List Char) (hne : v ≠ [])
    (hv : ∀ c ∈ v, idChar c = true) :
    extract_video_id ⟨"https://www.youtube.com/embed/".data ++ v⟩ = some ⟨v⟩ := by
  have hcat : ("https://www.".data ++ "youtube.com/embed/".data : List Char) =
    "https://www.youtube.com/embed/".data := by decide
  have hhit : searchAux (litThen "youtube.com/embed/".data (groupPlus idChar))
      ("https://www.youtube.com/embed/".data ++ v) = some v := by
    rw [← hcat]
    exact patternHit "https://www.".data "youtube.com/embed/".data v v _
      (by decide) (groupPlusExact idChar v hne hv)
  have hrun : runPatterns patterns ("https://www.youtube.com/embed/".data ++ v) =
      some v := by
    refine runSkipT _ _ _ _ _ (skipLit "youtube.com/watch?v=".data
      "youtube.com/watch?v".data '=' idChar "https://www.youtube.com/embed/".data v _
      (by decide) (by decide) (by decide) hv) ?_
    refine runSkipT _ _ _ _ _ (skipLit "youtu.be/".data
      "youtu.be".data '/' idChar "https://www.youtube.com/embed/".data v _
      (by decide) (by decide) (by decide) hv) ?_
    exact runHit _ _ _ _ _ hhit
  show (runPatterns patterns ("https://www.youtube.com/embed/".data ++ v)).map
      String.mk = some ⟨v⟩
  rw [hrun]
  rfl

theorem resolveYtV (v : List Char) (hne : v ≠ [])
    (hv : ∀ c ∈ v, idChar c = true) :
    extract_video_id ⟨"https://www.youtube.com/v/".data ++ v⟩ = some ⟨v⟩ := by
  have hcat : ("https://www.".data ++ "youtube.com/v/".data : List Char) =
    "https://www.youtube.com/v/".data := by decide
  have hhit : searchAux (litThen "youtube.com/v/".data (groupPlus idChar))
      ("https://www.youtube.com/v/".data ++ v) = some v := by
    rw [← hcat]
    exact patternHit "https://www.".data "youtube.com/v/".data v v _
      (by decide) (groupPlusExact idChar v hne hv)
  have hrun : runPatterns patterns ("https://www.youtube.com/v/".data ++ v) =
      some v := by
    refine runSkipT _ _ _ _ _ (skipLit "youtube.com/watch?v=".data
      "youtube.com/watch?v".data '=' idChar "https://www.youtube.com/v/".data v _
      (by decide) (by decide) (by decide) hv) ?_
    refine runSkipT _ _ _ _ _ (skipLit "youtu.be/".data
      "youtu.be".data '/' idChar "https://www.youtube.com/v/".data v _
      (by decide) (by decide) (by decide) hv) ?_
    refine runSkipT _ _ _ _ _ (skipLit "youtube.com/embed/".data
      "youtube.com/embed".data '/' idChar "https://www.youtube.com/v/".data v _
      (by decide) (by decide) (by decide) hv) ?_
    exact runHit _ _ _ _ _ hhit
  show (runPatterns patterns ("https://www.youtube.com/v/".data ++ v)).map
      String.mk = some ⟨v⟩
  rw [hrun]
  rfl

theorem resolveYtShorts (v : List Char) (hne : v ≠ [])
    (hv : ∀ c ∈ v, idChar c = true) :
    extract_video_id ⟨"https://www.youtube.com/shorts/".data ++ v⟩ = some ⟨v⟩ := by
  have hcat : ("https://www.".data ++ "youtube.com/shorts/".data : List Char) =
    "https://www.youtube.com/shorts/".data := by decide
  have hhit : searchAux (litThen "youtube.com/shorts/".data (groupPlus idChar))
      ("https://www.youtube.com/shorts/".data ++ v) = some v := by
    rw [← hcat]
    exact patternHit "https://www.".data "youtube.com/shorts/".data v v _
      (by decide) (groupPlusExact idChar v hne hv)
  have hrun : runPatterns patterns ("https://www.youtube.com/shorts/".data ++ v) =
      some v := by
    refine runSkipT _ _ _ _ _ (skipLit "youtube.com/watch?v=".data
      "youtube.com/watch?v".data '=' idChar "https://www.youtube.com/shorts/".data v _
      (by decide) (by decide) (by decide) hv) ?_
    refine runSkipT _ _ _ _ _ (skipLit "youtu.be/".data
      "youtu.be".data '/' idChar "https://www.youtube.com/shorts/".data v _
      (by decide) (by decide) (by decide) hv) ?_
    refine runSkipT _ _ _ _ _ (skipLit "youtube.com/embed/".data
      "youtube.com/embed".data '/' idChar "https://www.youtube.com/shorts/".data v _
      (by decide) (by decide) (by decide) hv) ?_
    refine runSkipT _ _ _ _ _ (skipLit "youtube.com/v/".data
      "youtube.com/v".data '/' idChar "https://www.youtube.com/shorts/".data v _
      (by decide) (by decide) (by decide) hv) ?_
    exact runHit _ _ _ _ _ hhit
  show (runPatterns patterns ("https://www.youtube.com/shorts/".data ++ v)).map
      String.mk = some ⟨v⟩
  rw [hrun]
  rfl

theorem resolveTiktokCanon (d : List Char) (hd : d ≠ [])
    (hdC : ∀ c ∈ d, Char.isDigit c = true) :
    extract_video_id ⟨"https://www.tiktok.com/@user/video/".data ++ d⟩ =
      some ⟨d⟩ := by
  have hcat : (("https://www.".data ++ "tiktok.com/@".data) ++ "user/video/".data :
      List Char) = "https://www.tiktok.com/@user/video/".data := by decide
  have hhit : searchAux (litThen "tiktok.com/@".data tiktokAtCont)
      ("https://www.tiktok.com/@user/video/".data ++ d) = some d := by
    rw [← hcat, List.append_assoc]
    refine patternHit "https://www.".data "tiktok.com/@".data
      ("user/video/".data ++ d) d _ (by decide) ?_
    exact tiktokAtContEval "user".data d (by decide) (by decide) hd hdC
  have hrun : runPatterns patterns
      ("https://www.tiktok.com/@user/video/".data ++ d) = some d := by
    refine runSkipT _ _ _ _ _ (skipLit "youtube.com/watch?v=".data
      "youtube.com/watch?v".data '=' Char.isDigit
      "https://www.tiktok.com/@user/video/".data d _
      (by decide) (by decide) (by decide) hdC) ?_
    refine runSkipT _ _ _ _ _ (skipLit "youtu.be/".data
      "youtu.be".data '/' Char.isDigit
      "https://www.tiktok.com/@user/video/".data d _
      (by decide) (by decide) (by decide) hdC) ?_
    refine runSkipT _ _ _ _ _ (skipLit "youtube.com/embed/".data
      "youtube.com/embed".data '/' Char.isDigit
      "https://www.tiktok.com/@user/video/".data d _
      (by decide) (by decide) (by decide) hdC) ?_
    refine runSkipT _ _ _ _ _ (skipLit "youtube.com/v/".data
      "youtube.com/v".data '/' Char.isDigit
      "https://www.tiktok.com/@user/video/".data d _
      (by decide) (by decide) (by decide) hdC) ?_
    refine runSkipT _ _ _ _ _ (skipLit "youtube.com/shorts/".data
      "youtube.com/shorts".data '/' Char.isDigit
      "https://www.tiktok.com/@user/video/".data d _
      (by decide) (by decide) (by decide) hdC) ?_
    exact runHit _ _ _ _ _ hhit
  show (runPatterns patterns ("https://www.tiktok.com/@user/video/".data ++ d)).map
      String.mk = some ⟨d⟩
  rw [hrun]
  rfl

theorem resolveTiktokShort (v : List Char) (hne : v ≠ [])
    (hv : ∀ c ∈ v, alnumChar c = true) :
    extract_video_id ⟨"https://vm.tiktok.com/".data ++ v⟩ = some ⟨v⟩ := by
  have hcat : ("https://vm.".data ++ "tiktok.com/".data : List Char) =
    "https://vm.tiktok.com/".data := by decide
  have hhit : searchAux (litThen "tiktok.com/".data (groupPlus alnumChar))
      ("https://vm.tiktok.com/".data ++ v) = some v := by
    rw [← hcat]
    exact patternHit "https://vm.".data "tiktok.com/".data v v _
      (by decide) (groupPlusExact alnumChar v hne hv)
  have hrun : runPatterns patterns ("https://vm.tiktok.com/".data ++ v) =
      some v := by
    refine runSkipT _ _ _ _ _ (skipLit "youtube.com/watch?v=".data
      "youtube.com/watch?v".data '=' alnumChar "https://vm.tiktok.com/".data v _
      (by decide) (by decide) (by decide) hv) ?_
    refine runSkipT _ _ _ _ _ (skipLit "youtu.be/".data
      "youtu.be".data '/' alnumChar "https://vm.tiktok.com/".data v _
      (by decide) (by decide) (by decide) hv) ?_
    refine runSkipT _ _ _ _ _ (skipLit "youtube.com/embed/".data
      "youtube.com/embed".data '/' alnumChar "https://vm.tiktok.com/".data v _
      (by decide) (by decide) (by decide) hv) ?_
    refine runSkipT _ _ _ _ _ (skipLit "youtube.com/v/".data
      "youtube.com/v".data '/' alnumChar "https://vm.tiktok.com/".data v _
      (by decide) (by decide) (by decide) hv) ?_
    refine runSkipT _ _ _ _ _ (skipLit "youtube.com/shorts/".data
      "youtube.com/shorts".data '/' alnumChar "https://vm.tiktok.com/".data v _
      (by decide) (by decide) (by decide) hv) ?_
    refine runSkipT _ _ _ _ _ (skipLit "tiktok.com/@".data
      "tiktok.com/".data '@' alnumChar "https://vm.tiktok.com/".data v _
      (by decide) (by decide) (by decide) hv) ?_
    exact runHit _ _ _ _ _ hhit
  show (runPatterns patterns ("https://vm.tiktok.com/".data ++ v)).map
      String.mk = some ⟨v⟩
  rw [hrun]
  rfl

theorem resolveRutubeVideo (h : List Char) (hne : h ≠ [])
    (hv : ∀ c ∈ h, hexChar c = true) :
    extract_video_id ⟨"https://rutube.ru/video/".data ++ h⟩ = some ⟨h⟩ := by
  have hcat : ("https://".data ++ "rutube.ru/video/".data : List Char) =
    "https://rutube.ru/video/".data := by decide
  have hhit : searchAux (litThen "rutube.ru/video/".data (groupPlus hexChar))
      ("https://rutube.ru/video/".data ++ h) = some h := by
    rw [← hcat]
    exact patternHit "https://".data "rutube.ru/video/".data h h _
      (by decide) (groupPlusExact hexChar h hne hv)
  have hrun : runPatterns patterns ("https://rutube.ru/video/".data ++ h) =
      some h := by
    refine runSkipT _ _ _ _ _ (skipLit "youtube.com/watch?v=".data
      "youtube.com/watch?v".data '=' hexChar "https://rutube.ru/video/".data h _
      (by decide) (by decide) (by decide) hv) ?_
    refine runSkipT _ _ _ _ _ (skipLit "youtu.be/".data
      "youtu.be".data '/' hexChar "https://rutube.ru/video/".data h _
      (by decide) (by decide) (by decide) hv) ?_
    refine runSkipT _ _ _ _ _ (skipLit "youtube.com/embed/".data
      "youtube.com/embed".data '/' hexChar "https://rutube.ru/video/".data h _
      (by decide) (by decide) (by decide) hv) ?_
    refine runSkipT _ _ _ _ _ (skipLit "youtube.com/v/".data
      "youtube.com/v".data '/' hexChar "https://rutube.ru/video/".data h _
      (by decide) (by decide) (by decide) hv) ?_
    refine runSkipT _ _ _ _ _ (skipLit "youtube.com/shorts/".data
      "youtube.com/shorts".data '/' hexChar "https://rutube.ru/video/".data h _
      (by decide) (by decide) (by decide) hv) ?_
    refine runSkipT _ _ _ _ _ (skipLit "tiktok.com/@".data
      "tiktok.com/".data '@' hexChar "https://rutube.ru/video/".data h _
      (by decide) (by decide) (by decide) hv) ?_
    refine runSkipT _ _ _ _ _ (skipLit "tiktok.com/".data
      "tiktok.com".data '/' hexChar "https://rutube.ru/video/".data h _
      (by decide) (by decide) (by decide) hv) ?_
    refine runSkipT _ _ _ _ _ (skipLit "tiktok.com/t/".data
      "tiktok.com/t".data '/' hexChar "https://rutube.ru/video/".data h _
      (by decide) (by decide) (by decide) hv) ?_
    refine runSkipT _ _ _ _ _ (skipLit "m.tiktok.com/v/".data
      "m.tiktok.com/v".data '/' hexChar "https://rutube.ru/video/".data h _
      (by decide) (by decide) (by decide) hv) ?_
    exact runHit _ _ _ _ _ hhit
  show (runPatterns patterns ("https://rutube.ru/video/".data ++ h)).map
      String.mk = some ⟨h⟩
  rw [hrun]
  rfl

theorem resolveRutubeVideoQuery (h : List Char) (hne : h ≠ [])
    (hv : ∀ c ∈ h, hexChar c = true) :
    extract_video_id ⟨"https://rutube.ru/video/".data ++ (h ++ "?p=1".data)⟩ =
      some ⟨h⟩ := by
  have hcat : ("https://".data ++ "rutube.ru/video/".data : List Char) =
    "https://rutube.ru/video/".data := by decide
  have hsY : ∀ a ∈ ("https://rutube.ru/video/".data ++ (h ++ "?p=1".data)),
      a ≠ 'y' := by
    intro a ha
    rcases List.mem_append.mp ha with hx | hx
    · exact (by decide : ∀ a ∈ "https://rutube.ru/video/".data, a ≠ 'y') a hx
    · rcases List.mem_append.mp hx with hx2 | hx2
      · exact classNe hexChar a 'y' (hv a hx2) (by decide)
      · exact (by decide : ∀ a ∈ "?p=1".data, a ≠ 'y') a hx2
  have hsK : ∀ a ∈ ("https://rutube.ru/video/".data ++ (h ++ "?p=1".data)),
      a ≠ 'k' := by
    intro a ha
    rcases List.mem_append.mp ha with hx | hx
    · exact (by decide : ∀ a ∈ "https://rutube.ru/video/".data, a ≠ 'k') a hx
    · rcases List.mem_append.mp hx with hx2 | hx2
      · exact classNe hexChar a 'k' (hv a hx2) (by decide)
      · exact (by decide : ∀ a ∈ "?p=1".data, a ≠ 'k') a hx2
  have hhit : searchAux (litThen "rutube.ru/video/".data (groupPlus hexChar))
      ("https://rutube.ru/video/".data ++ (h ++ "?p=1".data)) = some h := by
    rw [← hcat]
    refine patternHit "https://".data "rutube.ru/video/".data
      (h ++ "?p=1".data) h _ (by decide) ?_
    exact groupPlusEval hexChar h "?p=1".data hne hv
      (Or.inr ⟨'?', "p=1".data, rfl, by decide⟩)
  have hrun : runPatterns patterns
      ("https://rutube.ru/video/".data ++ (h ++ "?p=1".data)) = some h := by
    refine runSkipT _ _ _ _ _ (skipChar "youtube.com/watch?v=".data 'y' _ _
      (by decide) hsY) ?_
    refine runSkipT _ _ _ _ _ (skipChar "youtu.be/".data 'y' _ _
      (by decide) hsY) ?_
    refine runSkipT _ _ _ _ _ (skipChar "youtube.com/embed/".data 'y' _ _
      (by decide) hsY) ?_
    refine runSkipT _ _ _ _ _ (skipChar "youtube.com/v/".data 'y' _ _
      (by decide) hsY) ?_
    refine runSkipT _ _ _ _ _ (skipChar "youtube.com/shorts/".data 'y' _ _
      (by decide) hsY) ?_
    refine runSkipT _ _ _ _ _ (skipChar "tiktok.com/@".data 'k' _ _
      (by decide) hsK) ?_
    refine runSkipT _ _ _ _ _ (skipChar "tiktok.com/".data 'k' _ _
      (by decide) hsK) ?_
    refine runSkipT _ _ _ _ _ (skipChar "tiktok.com/t/".data 'k' _ _
      (by decide) hsK) ?_
    refine runSkipT _ _ _ _ _ (skipChar "m.tiktok.com/v/".data 'k' _ _
      (by decide) hsK) ?_
    exact runHit _ _ _ _ _ hhit
  show (runPatterns patterns
      ("https://rutube.ru/video/".data ++ (h ++ "?p=1".data))).map String.mk =
      some ⟨h⟩
  rw [hrun]
  rfl

theorem resolveRutubeShorts (h : List Char) (hne : h ≠ [])
    (hv : ∀ c ∈ h, hexChar c = true) :
    extract_video_id ⟨"https://rutube.ru/shorts/".data ++ h⟩ = some ⟨h⟩ := by
  have hcat : ("https://".data ++ "rutube.ru/shorts/".data : List Char) =
    "https://rutube.ru/shorts/".data := by decide
  have hhit : searchAux (litThen "rutube.ru/shorts/".data (groupPlus hexChar))
      ("https://rutube.ru/shorts/".data ++ h) = some h := by
    rw [← hcat]
    exact patternHit "https://".data "rutube.ru/shorts/".data h h _
      (by decide) (groupPlusExact hexChar h hne hv)
  have hrun : runPatterns patterns ("https://rutube.ru/shorts/".data ++ h) =
      some h := by
    refine runSkipT _ _ _ _ _ (skipLit "youtube.com/watch?v=".data
      "youtube.com/watch?v".data '=' hexChar "https://rutube.ru/shorts/".data h _
      (by decide) (by decide) (by decide) hv) ?_
    refine runSkipT _ _ _ _ _ (skipLit "youtu.be/".data
      "youtu.be".data '/' hexChar "https://rutube.ru/shorts/".data h _
      (by decide) (by decide) (by decide) hv) ?_
    refine runSkipT _ _ _ _ _ (skipLit "youtube.com/embed/".data
      "youtube.com/embed".data '/' hexChar "https://rutube.ru/shorts/".data h _
      (by decide) (by decide) (by decide) hv) ?_
    refine runSkipT _ _ _ _ _ (skipLit "youtube.com/v/".data
      "youtube.com/v".data '/' hexChar "https://rutube.ru/shorts/".data h _
      (by decide) (by decide) (by decide) hv) ?_
    refine runSkipT _ _ _ _ _ (skipLit "youtube.com/shorts/".data
      "youtube.com/shorts".data '/' hexChar "https://rutube.ru/shorts/".data h _
      (by decide) (by decide) (by decide) hv) ?_
    refine runSkipT _ _ _ _ _ (skipLit "tiktok.com/@".data
      "tiktok.com/".data '@' hexChar "https://rutube.ru/shorts/".data h _
      (by decide) (by decide) (by decide) hv) ?_
    refine runSkipT _ _ _ _ _ (skipLit "tiktok.com/".data
      "tiktok.com".data '/' hexChar "https://rutube.ru/shorts/".data h _
      (by decide) (by decide) (by decide) hv) ?_
    refine runSkipT _ _ _ _ _ (skipLit "tiktok.com/t/".data
      "tiktok.com/t".data '/' hexChar "https://rutube.ru/shorts/".data h _
      (by decide) (by decide) (by decide) hv) ?_
    refine runSkipT _ _ _ _ _ (skipLit "m.tiktok.com/v/".data
      "m.tiktok.com/v".data '/' hexChar "https://rutube.ru/shorts/".data h _
      (by decide) (by decide) (by decide) hv) ?_
    refine runSkipT _ _ _ _ _ (skipLit "rutube.ru/video/".data
      "rutube.ru/video".data '/' hexChar "https://rutube.ru/shorts/".data h _
      (by decide) (by decide) (by decide) hv) ?_
    exact runHit _ _ _ _ _ hhit
  show (runPatterns patterns ("https://rutube.ru/shorts/".data ++ h)).map
      String.mk = some ⟨h⟩
  rw [hrun]
  rfl

theorem resolveRutubeShortsQuery (h : List Char) (hne : h ≠ [])
    (hv : ∀ c ∈ h, hexChar c = true) :
    extract_video_id ⟨"https://rutube.ru/shorts/".data ++ (h ++ "?p=1".data)⟩ =
      some ⟨h⟩ := by
  have hcat : ("https://".data ++ "rutube.ru/shorts/".data : List Char) =
    "https://rutube.ru/shorts/".data := by decide
  have hsY : ∀ a ∈ ("https://rutube.ru/shorts/".data ++ (h ++ "?p=1".data)),
      a ≠ 'y' := by
    intro a ha
    rcases List.mem_append.mp ha with hx | hx
    · exact (by decide : ∀ a ∈ "https://rutube.ru/shorts/".data, a ≠ 'y') a hx
    · rcases List.mem_append.mp hx with hx2 | hx2
      · exact classNe hexChar a 'y' (hv a hx2) (by decide)
      · exact (by decide : ∀ a ∈ "?p=1".data, a ≠ 'y') a hx2
  have hsK : ∀ a ∈ ("https://rutube.ru/shorts/".data ++ (h ++ "?p=1".data)),
      a ≠ 'k' := by
    intro a ha
    rcases List.mem_append.mp ha with hx | hx
    · exact (by decide : ∀ a ∈ "https://rutube.ru/shorts/".data, a ≠ 'k') a hx
    · rcases List.mem_append.mp hx with hx2 | hx2
      · exact classNe hexChar a 'k' (hv a hx2) (by decide)
      · exact (by decide : ∀ a ∈ "?p=1".data, a ≠ 'k') a hx2
  have hsV : ∀ a ∈ ("https://rutube.ru/shorts/".data ++ (h ++ "?p=1".data)),
      a ≠ 'v' := by
    intro a ha
    rcases List.mem_append.mp ha with hx | hx
    · exact (by decide : ∀ a ∈ "https://rutube.ru/shorts/".data, a ≠ 'v') a hx
    · rcases List.mem_append.mp hx with hx2 | hx2
      · exact classNe hexChar a 'v' (hv a hx2) (by decide)
      · exact (by decide : ∀ a ∈ "?p=1".data, a ≠ 'v') a hx2
  have hhit : searchAux (litThen "rutube.ru/shorts/".data (groupPlus hexChar))
      ("https://rutube.ru/shorts/".data ++ (h ++ "?p=1".data)) = some h := by
    rw [← hcat]
    refine patternHit "https://".data "rutube.ru/shorts/".data
      (h ++ "?p=1".data) h _ (by decide) ?_
    exact groupPlusEval hexChar h "?p=1".data hne hv
      (Or.inr ⟨'?', "p=1".data, rfl, by decide⟩)
  have hrun : runPatterns patterns
      ("https://rutube.ru/shorts/".data ++ (h ++ "?p=1".data)) = some h := by
    refine runSkipT _ _ _ _ _ (skipChar "youtube.com/watch?v=".data 'y' _ _
      (by decide) hsY) ?_
    refine runSkipT _ _ _ _ _ (skipChar "youtu.be/".data 'y' _ _
      (by decide) hsY) ?_
    refine runSkipT _ _ _ _ _ (skipChar "youtube.com/embed/".data 'y' _ _
      (by decide) hsY) ?_
    refine runSkipT _ _ _ _ _ (skipChar "youtube.com/v/".data 'y' _ _
      (by decide) hsY) ?_
    refine runSkipT _ _ _ _ _ (skipChar "youtube.com/shorts/".data 'y' _ _
      (by decide) hsY) ?_
    refine runSkipT _ _ _ _ _ (skipChar "tiktok.com/@".data 'k' _ _
      (by decide) hsK) ?_
    refine runSkipT _ _ _ _ _ (skipChar "tiktok.com/".data 'k' _ _
      (by decide) hsK) ?_
    refine runSkipT _ _ _ _ _ (skipChar "tiktok.com/t/".data 'k' _ _
      (by decide) hsK) ?_
    refine runSkipT _ _ _ _ _ (skipChar "m.tiktok.com/v/".data 'k' _ _
      (by decide) hsK) ?_
    refine runSkipT _ _ _ _ _ (skipChar "rutube.ru/video/".data 'v' _ _
      (by decide) hsV) ?_
    exact runHit _ _ _ _ _ hhit
  show (runPatterns patterns
      ("https://rutube.ru/shorts/".data ++ (h ++ "?p=1".data))).map String.mk =
      some ⟨h⟩
  rw [hrun]
  rfl

/-- Skip the 13 non-VK patterns for an input whose concrete part contains no
earlier core and whose id payload is a VK composite. -/
theorem vkSkips (conc tail : List Char) (r : Option (List Char))
    (htail : ∀ a ∈ tail, vkClass a = true)
    (hc1 : containsSub "youtube.com/watch?v=".data conc = false)
    (hc2 : containsSub "youtu.be/".data conc = false)
    (hc3 : containsSub "youtube.com/embed/".data conc = false)
    (hc4 : containsSub "youtube.com/v/".data conc = false)
    (hc5 : containsSub "youtube.com/shorts/".data conc = false)
    (hc6 : containsSub "tiktok.com/@".data conc = false)
    (hc7 : containsSub "tiktok.com/".data conc = false)
    (hc8 : containsSub "tiktok.com/t/".data conc = false)
    (hc9 : containsSub "m.tiktok.com/v/".data conc = false)
    (hc10 : containsSub "rutube.ru/video/".data conc = false)
    (hc11 : containsSub "rutube.ru/shorts/".data conc = false)
    (hrest : runPatterns (patterns.drop 13) (conc ++ tail) = r) :
    runPatterns patterns (conc ++ tail) = r := by
  refine runSkipT _ _ _ _ _ (skipLit "youtube.com/watch?v=".data
    "youtube.com/watch?v".data '=' vkClass conc tail _
    (by decide) (by decide) hc1 htail) ?_
  refine runSkipT _ _ _ _ _ (skipLit "youtu.be/".data
    "youtu.be".data '/' vkClass conc tail _
    (by decide) (by decide) hc2 htail) ?_
  refine runSkipT _ _ _ _ _ (skipLit "youtube.com/embed/".data
    "youtube.com/embed".data '/' vkClass conc tail _
    (by decide) (by decide) hc3 htail) ?_
  refine runSkipT _ _ _ _ _ (skipLit "youtube.com/v/".data
    "youtube.com/v".data '/' vkClass conc tail _
    (by decide) (by decide) hc4 htail) ?_
  refine runSkipT _ _ _ _ _ (skipLit "youtube.com/shorts/".data
    "youtube.com/shorts".data '/' vkClass conc tail _
    (by decide) (by decide) hc5 htail) ?_
  refine runSkipT _ _ _ _ _ (skipLit "tiktok.com/@".data
    "tiktok.com/".data '@' vkClass conc tail _
    (by decide) (by decide) hc6 htail) ?_
  refine runSkipT _ _ _ _ _ (skipLit "tiktok.com/".data
    "tiktok.com".data '/' vkClass conc tail _
    (by decide) (by decide) hc7 htail) ?_
  refine runSkipT _ _ _ _ _ (skipLit "tiktok.com/t/".data
    "tiktok.com/t".data '/' vkClass conc tail _
    (by decide) (by decide) hc8 htail) ?_
  refine runSkipT _ _ _ _ _ (skipLit "m.tiktok.com/v/".data
    "m.tiktok.com/v".data '/' vkClass conc tail _
    (by decide) (by decide) hc9 htail) ?_
  refine runSkipT _ _ _ _ _ (skipLit "rutube.ru/video/".data
    "rutube.ru/video".data '/' vkClass conc tail _
    (by decide) (by decide) hc10 htail) ?_
  refine runSkipT _ _ _ _ _ (skipLit "rutube.ru/shorts/".data
    "rutube.ru/shorts".data '/' vkClass conc tail _
    (by decide) (by decide) hc11 htail) ?_
  refine runSkipT _ _ _ _ _ (skipLit "rutube.ru/video/".data
    "rutube.ru/video".data '/' vkClass conc tail _
    (by decide) (by decide) hc10 htail) ?_
  refine runSkipT _ _ _ _ _ (skipLit "rutube.ru/shorts/".data
    "rutube.ru/shorts".data '/' vkClass conc tail _
    (by decide) (by decide) hc11 htail) ?_
  exact hrest

theorem resolveVkVideo (neg : Bool) (d1 d2 : List Char) (h1ne : d1 ≠ [])
    (h2ne : d2 ≠ []) (hd1 : ∀ c ∈ d1, Char.isDigit c = true)
    (hd2 : ∀ c ∈ d2, Char.isDigit c = true) :
    extract_video_id
      ⟨"https://vk.com/video".data ++ ((if neg then ['-'] else []) ++ (d1 ++ '_' :: d2))⟩ =
      some ⟨(if neg then ['-'] else []) ++ d1 ++ '_' :: d2⟩ := by
  have htail := vkClassAll neg d1 d2 hd1 hd2
  have hcat : ("https://".data ++ "vk.com/video".data : List Char) =
    "https://vk.com/video".data := by decide
  have hhit : searchAux (litThen "vk.com/video".data vkComposite)
      ("https://vk.com/video".data ++ ((if neg then ['-'] else []) ++ (d1 ++ '_' :: d2))) =
      some ((if neg then ['-'] else []) ++ d1 ++ '_' :: d2) := by
    rw [← hcat]
    exact patternHit "https://".data "vk.com/video".data _ _ _
      (by decide) (vkCompositeEval neg d1 d2 h1ne h2ne hd1 hd2)
  have hrun : runPatterns patterns
      ("https://vk.com/video".data ++ ((if neg then ['-'] else []) ++ (d1 ++ '_' :: d2))) =
      some ((if neg then ['-'] else []) ++ d1 ++ '_' :: d2) := by
    refine vkSkips "https://vk.com/video".data _ _ htail
      (by decide) (by decide) (by decide) (by decide) (by decide) (by decide)
      (by decide) (by decide) (by decide) (by decide) (by decide) ?_
    exact runHit _ _ _ _ _ hhit
  show (runPatterns patterns _).map String.mk = _
  rw [hrun]
  rfl

theorem resolveVkVkvideo (neg : Bool) (d1 d2 : List Char) (h1ne : d1 ≠ [])
    (h2ne : d2 ≠ []) (hd1 : ∀ c ∈ d1, Char.isDigit c = true)
    (hd2 : ∀ c ∈ d2, Char.isDigit c = true) :
    extract_video_id
      ⟨"https://vk.com/vkvideo?z=video".data ++
        ((if neg then ['-'] else []) ++ (d1 ++ '_' :: d2))⟩ =
      some ⟨(if neg then ['-'] else []) ++ d1 ++ '_' :: d2⟩ := by
  have htail := vkClassAll neg d1 d2 hd1 hd2
  have hcat : ("https://".data ++ "vk.com/vkvideo?z=video".data : List Char) =
    "https://vk.com/vkvideo?z=video".data := by decide
  have hhit : searchAux (litThen "vk.com/vkvideo?z=video".data vkComposite)
      ("https://vk.com/vkvideo?z=video".data ++
        ((if neg then ['-'] else []) ++ (d1 ++ '_' :: d2))) =
      some ((if neg then ['-'] else []) ++ d1 ++ '_' :: d2) := by
    rw [← hcat]
    exact patternHit "https://".data "vk.com/vkvideo?z=video".data _ _ _
      (by decide) (vkCompositeEval neg d1 d2 h1ne h2ne hd1 hd2)
  have hrun : runPatterns patterns
      ("https://vk.com/vkvideo?z=video".data ++
        ((if neg then ['-'] else []) ++ (d1 ++ '_' :: d2))) =
      some ((if neg then ['-'] else []) ++ d1 ++ '_' :: d2) := by
    refine vkSkips "https://vk.com/vkvideo?z=video".data _ _ htail
      (by decide) (by decide) (by decide) (by decide) (by decide) (by decide)
      (by decide) (by decide) (by decide) (by decide) (by decide) ?_
    refine runSkipT _ _ _ _ _ (skipLit "vk.com/video".data
      "vk.com/vide".data 'o' vkClass "https://vk.com/vkvideo?z=video".data _ _
      (by decide) (by decide) (by decide) htail) ?_
    exact runHit _ _ _ _ _ hhit
  show (runPatterns patterns _).map String.mk = _
  rw [hrun]
  rfl

theorem resolveVkClip (neg : Bool) (d1 d2 : List Char) (h1ne : d1 ≠ [])
    (h2ne : d2 ≠ []) (hd1 : ∀ c ∈ d1, Char.isDigit c = true)
    (hd2 : ∀ c ∈ d2, Char.isDigit c = true) :
    extract_video_id
      ⟨"https://vk.com/clip".data ++ ((if neg then ['-'] else []) ++ (d1 ++ '_' :: d2))⟩ =
      some ⟨(if neg then ['-'] else []) ++ d1 ++ '_' :: d2⟩ := by
  have htail := vkClassAll neg d1 d2 hd1 hd2
  have hcat : ("https://".data ++ "vk.com/clip".data : List Char) =
    "https://vk.com/clip".data := by decide
  have hhit : searchAux (litThen "vk.com/clip".data vkComposite)
      ("https://vk.com/clip".data ++ ((if neg then ['-'] else []) ++ (d1 ++ '_' :: d2))) =
      some ((if neg then ['-'] else []) ++ d1 ++ '_' :: d2) := by
    rw [← hcat]
    exact patternHit "https://".data "vk.com/clip".data _ _ _
      (by decide) (vkCompositeEval neg d1 d2 h1ne h2ne hd1 hd2)
  have hrun : runPatterns patterns
      ("https://vk.com/clip".data ++ ((if neg then ['-'] else []) ++ (d1 ++ '_' :: d2))) =
      some ((if neg then ['-'] else []) ++ d1 ++ '_' :: d2) := by
    refine vkSkips "https://vk.com/clip".data _ _ htail
      (by decide) (by decide) (by decide) (by decide) (by decide) (by decide)
      (by decide) (by decide) (by decide) (by decide) (by decide) ?_
    refine runSkipT _ _ _ _ _ (skipLit "vk.com/video".data
      "vk.com/vide".data 'o' vkClass "https://vk.com/clip".data _ _
      (by decide) (by decide) (by decide) htail) ?_
    refine runSkipT _ _ _ _ _ (skipLit "vk.com/vkvideo?z=video".data
      "vk.com/vkvideo?z=vide".data 'o' vkClass "https://vk.com/clip".data _ _
      (by decide) (by decide) (by decide) htail) ?_
    exact runHit _ _ _ _ _ hhit
  show (runPatterns patterns _).map String.mk = _
  rw [hrun]
  rfl

theorem resolveVkShvideo (neg : Bool) (d1 d2 : List Char) (h1ne : d1 ≠ [])
    (h2ne : d2 ≠ []) (hd1 : ∀ c ∈ d1, Char.isDigit c = true)
    (hd2 : ∀ c ∈ d2, Char.isDigit c = true) :
    extract_video_id
      ⟨"https://vk.com/shvideo?a&z=clip".data ++
        ((if neg then ['-'] else []) ++ (d1 ++ '_' :: d2))⟩ =
      some ⟨(if neg then ['-'] else []) ++ d1 ++ '_' :: d2⟩ := by
  have htail := vkClassAll neg d1 d2 hd1 hd2
  have hcat : (("https://".data ++ "vk.com/shvideo?".data) ++ "a&z=clip".data :
      List Char) = "https://vk.com/shvideo?a&z=clip".data := by decide
  have hgap : ("a&z=clip".data : List Char) ++
      ((if neg then ['-'] else []) ++ (d1 ++ '_' :: d2)) =
      "a&".data ++ ("z=clip".data ++ ((if neg then ['-'] else []) ++ (d1 ++ '_' :: d2))) := by
    conv_rhs => rw [← List.append_assoc]
    rw [(by decide : ("a&".data ++ "z=clip".data : List Char) = "a&z=clip".data)]
  have hhit : searchAux
      (litThen "vk.com/shvideo?".data fun s => lazySearch "z=clip".data vkComposite s)
      ("https://vk.com/shvideo?a&z=clip".data ++
        ((if neg then ['-'] else []) ++ (d1 ++ '_' :: d2))) =
      some ((if neg then ['-'] else []) ++ d1 ++ '_' :: d2) := by
    rw [← hcat, List.append_assoc]
    refine patternHit "https://".data "vk.com/shvideo?".data _ _ _
      (by decide) ?_
    show lazySearch "z=clip".data vkComposite
      ("a&z=clip".data ++ ((if neg then ['-'] else []) ++ (d1 ++ '_' :: d2))) = _
    rw [hgap]
    refine lazySearchHit "a&".data "z=clip".data _ vkComposite _ ?_ (by decide)
      (vkCompositeEval neg d1 d2 h1ne h2ne hd1 hd2)
    intro i hi
    have := earlyFailAppend "a&z=clip".data
      ((if neg then ['-'] else []) ++ (d1 ++ '_' :: d2)) "z=clip".data 2
      (by decide) (by decide) i hi
    rw [← hgap]
    exact this
  have hrun : runPatterns patterns
      ("https://vk.com/shvideo?a&z=clip".data ++
        ((if neg then ['-'] else []) ++ (d1 ++ '_' :: d2))) =
      some ((if neg then ['-'] else []) ++ d1 ++ '_' :: d2) := by
    refine vkSkips "https://vk.com/shvideo?a&z=clip".data _ _ htail
      (by decide) (by decide) (by decide) (by decide) (by decide) (by decide)
      (by decide) (by decide) (by decide) (by decide) (by decide) ?_
    refine runSkipT _ _ _ _ _ (skipLit "vk.com/video".data
      "vk.com/vide".data 'o' vkClass "https://vk.com/shvideo?a&z=clip".data _ _
      (by decide) (by decide) (by decide) htail) ?_
    refine runSkipT _ _ _ _ _ (skipLit "vk.com/vkvideo?z=video".data
      "vk.com/vkvideo?z=vide".data 'o' vkClass "https://vk.com/shvideo?a&z=clip".data _ _
      (by decide) (by decide) (by decide) htail) ?_
    refine runSkipT _ _ _ _ _ (skipLit "vk.com/clip".data
      "vk.com/cli".data 'p' vkClass "https://vk.com/shvideo?a&z=clip".data _ _
      (by decide) (by decide) (by decide) htail) ?_
    exact runHit _ _ _ _ _ hhit
  show (runPatterns patterns _).map String.mk = _
  rw [hrun]
  rfl

theorem resolveVkSearch (neg : Bool) (d1 d2 : List Char) (h1ne : d1 ≠ [])
    (h2ne : d2 ≠ []) (hd1 : ∀ c ∈ d1, Char.isDigit c = true)
    (hd2 : ∀ c ∈ d2, Char.isDigit c = true) :
    extract_video_id
      ⟨"https://vk.com/search/video?q=a&z=video".data ++
        ((if neg then ['-'] else []) ++ (d1 ++ '_' :: d2))⟩ =
      some ⟨(if neg then ['-'] else []) ++ d1 ++ '_' :: d2⟩ := by
  have htail := vkClassAll neg d1 d2 hd1 hd2
  have hcat : (("https://".data ++ "vk.com/search/video?".data) ++ "q=a&z=video".data :
      List Char) = "https://vk.com/search/video?q=a&z=video".data := by decide
  have hgap : ("q=a&z=video".data : List Char) ++
      ((if neg then ['-'] else []) ++ (d1 ++ '_' :: d2)) =
      "q=a&".data ++ ("z=video".data ++ ((if neg then ['-'] else []) ++ (d1 ++ '_' :: d2))) := by
    conv_rhs => rw [← List.append_assoc]
    rw [(by decide : ("q=a&".data ++ "z=video".data : List Char) = "q=a&z=video".data)]
  have hhit : searchAux
      (litThen "vk.com/search/video?".data fun s => lazySearch "z=video".data vkComposite s)
      ("https://vk.com/search/video?q=a&z=video".data ++
        ((if neg then ['-'] else []) ++ (d1 ++ '_' :: d2))) =
      some ((if neg then ['-'] else []) ++ d1 ++ '_' :: d2) := by
    rw [← hcat, List.append_assoc]
    refine patternHit "https://".data "vk.com/search/video?".data _ _ _
      (by decide) ?_
    show lazySearch "z=video".data vkComposite
      ("q=a&z=video".data ++ ((if neg then ['-'] else []) ++ (d1 ++ '_' :: d2))) = _
    rw [hgap]
    refine lazySearchHit "q=a&".data "z=video".data _ vkComposite _ ?_ (by decide)
      (vkCompositeEval neg d1 d2 h1ne h2ne hd1 hd2)
    intro i hi
    have := earlyFailAppend "q=a&z=video".data
      ((if neg then ['-'] else []) ++ (d1 ++ '_' :: d2)) "z=video".data 4
      (by decide) (by decide) i hi
    rw [← hgap]
    exact this
  have hrun : runPatterns patterns
      ("https://vk.com/search/video?q=a&z=video".data ++
        ((if neg then ['-'] else []) ++ (d1 ++ '_' :: d2))) =
      some ((if neg then ['-'] else []) ++ d1 ++ '_' :: d2) := by
    refine vkSkips "https://vk.com/search/video?q=a&z=video".data _ _ htail
      (by decide) (by decide) (by decide) (by decide) (by decide) (by decide)
      (by decide) (by decide) (by decide) (by decide) (by decide) ?_
    refine runSkipT _ _ _ _ _ (skipLit "vk.com/video".data
      "vk.com/vide".data 'o' vkClass "https://vk.com/search/video?q=a&z=video".data _ _
      (by decide) (by decide) (by decide) htail) ?_
    refine runSkipT _ _ _ _ _ (skipLit "vk.com/vkvideo?z=video".data
      "vk.com/vkvideo?z=vide".data 'o' vkClass
      "https://vk.com/search/video?q=a&z=video".data _ _
      (by decide) (by decide) (by decide) htail) ?_
    refine runSkipT _ _ _ _ _ (skipLit "vk.com/clip".data
      "vk.com/cli".data 'p' vkClass "https://vk.com/search/video?q=a&z=video".data _ _
      (by decide) (by decide) (by decide) htail) ?_
    refine runSkipT _ _ _ _ _ (skipLit "vk.com/shvideo?".data
      "vk.com/shvideo".data '?' vkClass "https://vk.com/search/video?q=a&z=video".data _ _
      (by decide) (by decide) (by decide) htail) ?_
    exact runHit _ _ _ _ _ hhit
  show (runPatterns patterns _).map String.mk = _
  rw [hrun]
  rfl

theorem resolveVkvideoRu (neg : Bool) (d1 d2 : List Char) (h1ne : d1 ≠ [])
    (h2ne : d2 ≠ []) (hd1 : ∀ c ∈ d1, Char.isDigit c = true)
    (hd2 : ∀ c ∈ d2, Char.isDigit c = true) :
    extract_video_id
      ⟨"https://vkvideo.ru/video".data ++
        ((if neg then ['-'] else []) ++ (d1 ++ '_' :: d2))⟩ =
      some ⟨(if neg then ['-'] else []) ++ d1 ++ '_' :: d2⟩ := by
  have htail := vkClassAll neg d1 d2 hd1 hd2
  have hcat : ("https://".data ++ "vkvideo.ru/video".data : List Char) =
    "https://vkvideo.ru/video".data := by decide
  have hhit : searchAux (litThen "vkvideo.ru/video".data vkComposite)
      ("https://vkvideo.ru/video".data ++
        ((if neg then ['-'] else []) ++ (d1 ++ '_' :: d2))) =
      some ((if neg then ['-'] else []) ++ d1 ++ '_' :: d2) := by
    rw [← hcat]
    exact patternHit "https://".data "vkvideo.ru/video".data _ _ _
      (by decide) (vkCompositeEval neg d1 d2 h1ne h2ne hd1 hd2)
  have hrun : runPatterns patterns
      ("https://vkvideo.ru/video".data ++
        ((if neg then ['-'] else []) ++ (d1 ++ '_' :: d2))) =
      some ((if neg then ['-'] else []) ++ d1 ++ '_' :: d2) := by
    refine vkSkips "https://vkvideo.ru/video".data _ _ htail
      (by decide) (by decide) (by decide) (by decide) (by decide) (by decide)
      (by decide) (by decide) (by decide) (by decide) (by decide) ?_
    refine runSkipT _ _ _ _ _ (skipLit "vk.com/video".data
      "vk.com/vide".data 'o' vkClass "https://vkvideo.ru/video".data _ _
      (by decide) (by decide) (by decide) htail) ?_
    refine runSkipT _ _ _ _ _ (skipLit "vk.com/vkvideo?z=video".data
      "vk.com/vkvideo?z=vide".data 'o' vkClass "https://vkvideo.ru/video".data _ _
      (by decide) (by decide) (by decide) htail) ?_
    refine runSkipT _ _ _ _ _ (skipLit "vk.com/clip".data
      "vk.com/cli".data 'p' vkClass "https://vkvideo.ru/video".data _ _
      (by decide) (by decide) (by decide) htail) ?_
    refine runSkipT _ _ _ _ _ (skipLit "vk.com/shvideo?".data
      "vk.com/shvideo".data '?' vkClass "https://vkvideo.ru/video".data _ _
      (by decide) (by decide) (by decide) htail) ?_
    refine runSkipT _ _ _ _ _ (skipLit "vk.com/search/video?".data
      "vk.com/search/video".data '?' vkClass "https://vkvideo.ru/video".data _ _
      (by decide) (by decide) (by decide) htail) ?_
    exact runHit _ _ _ _ _ hhit
  show (runPatterns patterns _).map String.mk = _
  rw [hrun]
  rfl

theorem resolveVkPlaylist (neg : Bool) (d1 d2 : List Char) (h1ne : d1 ≠ [])
    (h2ne : d2 ≠ []) (hd1 : ∀ c ∈ d1, Char.isDigit c = true)
    (hd2 : ∀ c ∈ d2, Char.isDigit c = true) :
    extract_video_id
      ⟨"https://vkvideo.ru/playlist/best/video".data ++
        ((if neg then ['-'] else []) ++ (d1 ++ '_' :: d2))⟩ =
      some ⟨(if neg then ['-'] else []) ++ d1 ++ '_' :: d2⟩ := by
  have htail := vkClassAll neg d1 d2 hd1 hd2
  have hcat : (("https://".data ++ "vkvideo.ru/playlist/".data) ++ "best/video".data :
      List Char) = "https://vkvideo.ru/playlist/best/video".data := by decide
  have hsp : ("best/video".data : List Char) ++
      ((if neg then ['-'] else []) ++ (d1 ++ '_' :: d2)) =
      "best".data ++ ('/' :: ("video".data ++
        ((if neg then ['-'] else []) ++ (d1 ++ '_' :: d2)))) := by
    have e1 : ('/' : Char) :: ("video".data ++
        ((if neg then ['-'] else []) ++ (d1 ++ '_' :: d2))) =
        ('/' :: "video".data) ++ ((if neg then ['-'] else []) ++ (d1 ++ '_' :: d2)) := rfl
    rw [e1]
    conv_rhs => rw [← List.append_assoc]
    rw [(by decide : ("best".data ++ ('/' :: "video".data) : List Char) = "best/video".data)]
  have hhit : searchAux (litThen "vkvideo.ru/playlist/".data vkPlaylistCont)
      ("https://vkvideo.ru/playlist/best/video".data ++
        ((if neg then ['-'] else []) ++ (d1 ++ '_' :: d2))) =
      some ((if neg then ['-'] else []) ++ d1 ++ '_' :: d2) := by
    rw [← hcat, List.append_assoc]
    refine patternHit "https://".data "vkvideo.ru/playlist/".data _ _ _
      (by decide) ?_
    show vkPlaylistCont ("best/video".data ++
      ((if neg then ['-'] else []) ++ (d1 ++ '_' :: d2))) = _
    rw [hsp]
    exact vkPlaylistContEval "best".data _ _ (by decide) (by decide)
      (vkCompositeEval neg d1 d2 h1ne h2ne hd1 hd2)
  have hrun : runPatterns patterns
      ("https://vkvideo.ru/playlist/best/video".data ++
        ((if neg then ['-'] else []) ++ (d1 ++ '_' :: d2))) =
      some ((if neg then ['-'] else []) ++ d1 ++ '_' :: d2) := by
    refine vkSkips "https://vkvideo.ru/playlist/best/video".data _ _ htail
      (by decide) (by decide) (by decide) (by decide) (by decide) (by decide)
      (by decide) (by decide) (by decide) (by decide) (by decide) ?_
    refine runSkipT _ _ _ _ _ (skipLit "vk.com/video".data
      "vk.com/vide".data 'o' vkClass "https://vkvideo.ru/playlist/best/video".data _ _
      (by decide) (by decide) (by decide) htail) ?_
    refine runSkipT _ _ _ _ _ (skipLit "vk.com/vkvideo?z=video".data
      "vk.com/vkvideo?z=vide".data 'o' vkClass
      "https://vkvideo.ru/playlist/best/video".data _ _
      (by decide) (by decide) (by decide) htail) ?_
    refine runSkipT _ _ _ _ _ (skipLit "vk.com/clip".data
      "vk.com/cli".data 'p' vkClass "https://vkvideo.ru/playlist/best/video".data _ _
      (by decide) (by decide) (by decide) htail) ?_
    refine runSkipT _ _ _ _ _ (skipLit "vk.com/shvideo?".data
      "vk.com/shvideo".data '?' vkClass "https://vkvideo.ru/playlist/best/video".data _ _
      (by decide) (by decide) (by decide) htail) ?_
    refine runSkipT _ _ _ _ _ (skipLit "vk.com/search/video?".data
      "vk.com/search/video".data '?' vkClass
      "https://vkvideo.ru/playlist/best/video".data _ _
      (by decide) (by decide) (by decide) htail) ?_
    refine runSkipT _ _ _ _ _ (skipLit "vkvideo.ru/video".data
      "vkvideo.ru/vide".data 'o' vkClass
      "https://vkvideo.ru/playlist/best/video".data _ _
      (by decide) (by decide) (by decide) htail) ?_
    exact runHit _ _ _ _ _ hhit
  show (runPatterns patterns _).map String.mk = _
  rw [hrun]
  rfl

/-- Any string containing none of the six platform domains matches no
pattern: `extract_video_id` returns `None` on it. -/
theorem resolveGarbage (u : String)
    (g1 : containsSub "youtube.com".data u.data = false)
    (g2 : containsSub "youtu.be".data u.data = false)
    (g3 : containsSub "tiktok.com".data u.data = false)
    (g4 : containsSub "rutube.ru".data u.data = false)
    (g5 : containsSub "vk.com".data u.data = false)
    (g6 : containsSub "vkvideo.ru".data u.data = false) :
    extract_video_id u = none := by
  have hrun : runPatterns patterns u.data = none := by
    refine runSkipT _ _ _ _ _ (searchNoneDom "youtube.com".data _ _ _ (by decide) g1) ?_
    refine runSkipT _ _ _ _ _ (searchNoneDom "youtu.be".data _ _ _ (by decide) g2) ?_
    refine runSkipT _ _ _ _ _ (searchNoneDom "youtube.com".data _ _ _ (by decide) g1) ?_
    refine runSkipT _ _ _ _ _ (searchNoneDom "youtube.com".data _ _ _ (by decide) g1) ?_
    refine runSkipT _ _ _ _ _ (searchNoneDom "youtube.com".data _ _ _ (by decide) g1) ?_
    refine runSkipT _ _ _ _ _ (searchNoneDom "tiktok.com".data _ _ _ (by decide) g3) ?_
    refine runSkipT _ _ _ _ _ (searchNoneDom "tiktok.com".data _ _ _ (by decide) g3) ?_
    refine runSkipT _ _ _ _ _ (searchNoneDom "tiktok.com".data _ _ _ (by decide) g3) ?_
    refine runSkipT _ _ _ _ _ (searchNoneDom "tiktok.com".data _ _ _ (by decide) g3) ?_
    refine runSkipT _ _ _ _ _ (searchNoneDom "rutube.ru".data _ _ _ (by decide) g4) ?_
    refine runSkipT _ _ _ _ _ (searchNoneDom "rutube.ru".data _ _ _ (by decide) g4) ?_
    refine runSkipT _ _ _ _ _ (searchNoneDom "rutube.ru".data _ _ _ (by decide) g4) ?_
    refine runSkipT _ _ _ _ _ (searchNoneDom "rutube.ru".data _ _ _ (by decide) g4) ?_
    refine runSkipT _ _ _ _ _ (searchNoneDom "vk.com".data _ _ _ (by decide) g5) ?_
    refine runSkipT _ _ _ _ _ (searchNoneDom "vk.com".data _ _ _ (by decide) g5) ?_
    refine runSkipT _ _ _ _ _ (searchNoneDom "vk.com".data _ _ _ (by decide) g5) ?_
    refine runSkipT _ _ _ _ _ (searchNoneDom "vk.com".data _ _ _ (by decide) g5) ?_
    refine runSkipT _ _ _ _ _ (searchNoneDom "vk.com".data _ _ _ (by decide) g5) ?_
    refine runSkipT _ _ _ _ _ (searchNoneDom "vkvideo.ru".data _ _ _ (by decide) g6) ?_
    refine runSkipT _ _ _ _ _ (searchNoneDom "vkvideo.ru".data _ _ _ (by decide) g6) ?_
    rfl
  show (runPatterns patterns u.data).map String.mk = none
  rw [hrun]
  rfl

/-- C9: for every URL in one of the supported per-platform shapes the
resolver returns the canonical id determined by the first matching pattern
in the fixed priority order, and every string containing none of the
platform domains resolves to `none`.  The resolver is a total function, so
it never throws.  Note the two priority-shadowing cases the first-match
rule produces: TikTok `/t/<code>/` short links yield `"t"` and
`m.tiktok.com/v/<id>.html` yields `"v"`, because the generic
`tiktok.com/<alnum>` pattern precedes those patterns in the list. -/
theorem C9_resolver_shapes :
    (∀ v : List Char, v ≠ [] → (∀ c ∈ v, idChar c = true) →
      extract_video_id ⟨"https://www.youtube.com/watch?v=".data ++ v⟩ = some ⟨v⟩) ∧
    (∀ v : List Char, v ≠ [] → (∀ c ∈ v, idChar c = true) →
      extract_video_id ⟨"https://youtu.be/".data ++ v⟩ = some ⟨v⟩) ∧
    (∀ v : List Char, v ≠ [] → (∀ c ∈ v, idChar c = true) →
      extract_video_id ⟨"https://www.youtube.com/embed/".data ++ v⟩ = some ⟨v⟩) ∧
    (∀ v : List Char, v ≠ [] → (∀ c ∈ v, idChar c = true) →
      extract_video_id ⟨"https://www.youtube.com/v/".data ++ v⟩ = some ⟨v⟩) ∧
    (∀ v : List Char, v ≠ [] → (∀ c ∈ v, idChar c = true) →
      extract_video_id ⟨"https://www.youtube.com/shorts/".data ++ v⟩ = some ⟨v⟩) ∧
    (∀ d : List Char, d ≠ [] → (∀ c ∈ d, Char.isDigit c = true) →
      extract_video_id ⟨"https://www.tiktok.com/@user/video/".data ++ d⟩ = some ⟨d⟩) ∧
    (∀ v : List Char, v ≠ [] → (∀ c ∈ v, alnumChar c = true) →
      extract_video_id ⟨"https://vm.tiktok.com/".data ++ v⟩ = some ⟨v⟩) ∧
    extract_video_id "https://www.tiktok.com/t/ZTRab12cd/" = some "t" ∧
    extract_video_id "https://m.tiktok.com/v/1234567.html" = some "v" ∧
    (∀ h : List Char, h ≠ [] → (∀ c ∈ h, hexChar c = true) →
      extract_video_id ⟨"https://rutube.ru/video/".data ++ h⟩ = some ⟨h⟩) ∧
    (∀ h : List Char, h ≠ [] → (∀ c ∈ h, hexChar c = true) →
      extract_video_id ⟨"https://rutube.ru/video/".data ++ (h ++ "?p=1".data)⟩ = some ⟨h⟩) ∧
    (∀ h : List Char, h ≠ [] → (∀ c ∈ h, hexChar c = true) →
      extract_video_id ⟨"https://rutube.ru/shorts/".data ++ h⟩ = some ⟨h⟩) ∧
    (∀ h : List Char, h ≠ [] → (∀ c ∈ h, hexChar c = true) →
      extract_video_id ⟨"https://rutube.ru/shorts/".data ++ (h ++ "?p=1".data)⟩ = some ⟨h⟩) ∧
    (∀ (neg : Bool) (d1 d2 : List Char), d1 ≠ [] → d2 ≠ [] →
      (∀ c ∈ d1, Char.isDigit c = true) → (∀ c ∈ d2, Char.isDigit c = true) →
      extract_video_id
        ⟨"https://vk.com/video".data ++ ((if neg then ['-'] else []) ++ (d1 ++ '_' :: d2))⟩ =
        some ⟨(if neg then ['-'] else []) ++ d1 ++ '_' :: d2⟩) ∧
    (∀ (neg : Bool) (d1 d2 : List Char), d1 ≠ [] → d2 ≠ [] →
      (∀ c ∈ d1, Char.isDigit c = true) → (∀ c ∈ d2, Char.isDigit c = true) →
      extract_video_id
        ⟨"https://vk.com/vkvideo?z=video".data ++
          ((if neg then ['-'] else []) ++ (d1 ++ '_' :: d2))⟩ =
        some ⟨(if neg then ['-'] else []) ++ d1 ++ '_' :: d2⟩) ∧
    (∀ (neg : Bool) (d1 d2 : List Char), d1 ≠ [] → d2 ≠ [] →
      (∀ c ∈ d1, Char.isDigit c = true) → (∀ c ∈ d2, Char.isDigit c = true) →
      extract_video_id
        ⟨"https://vk.com/clip".data ++ ((if neg then ['-'] else []) ++ (d1 ++ '_' :: d2))⟩ =
        some ⟨(if neg then ['-'] else []) ++ d1 ++ '_' :: d2⟩) ∧
    (∀ (neg : Bool) (d1 d2 : List Char), d1 ≠ [] → d2 ≠ [] →
      (∀ c ∈ d1, Char.isDigit c = true) → (∀ c ∈ d2, Char.isDigit c = true) →
      extract_video_id
        ⟨"https://vk.com/shvideo?a&z=clip".data ++
          ((if neg then ['-'] else []) ++ (d1 ++ '_' :: d2))⟩ =
        some ⟨(if neg then ['-'] else []) ++ d1 ++ '_' :: d2⟩) ∧
    (∀ (neg : Bool) (d1 d2 : List Char), d1 ≠ [] → d2 ≠ [] →
      (∀ c ∈ d1, Char.isDigit c = true) → (∀ c ∈ d2, Char.isDigit c = true) →
      extract_video_id
        ⟨"https://vk.com/search/video?q=a&z=video".data ++
          ((if neg then ['-'] else []) ++ (d1 ++ '_' :: d2))⟩ =
        some ⟨(if neg then ['-'] else []) ++ d1 ++ '_' :: d2⟩) ∧
    (∀ (neg : Bool) (d1 d2 : List Char), d1 ≠ [] → d2 ≠ [] →
      (∀ c ∈ d1, Char.isDigit c = true) → (∀ c ∈ d2, Char.isDigit c = true) →
      extract_video_id
        ⟨"https://vkvideo.ru/video".data ++
          ((if neg then ['-'] else []) ++ (d1 ++ '_' :: d2))⟩ =
        some ⟨(if neg then ['-'] else []) ++ d1 ++ '_' :: d2⟩) ∧
    (∀ (neg : Bool) (d1 d2 : List Char), d1 ≠ [] → d2 ≠ [] →
      (∀ c ∈ d1, Char.isDigit c = true) → (∀ c ∈ d2, Char.isDigit c = true) →
      extract_video_id
        ⟨"https://vkvideo.ru/playlist/best/video".data ++
          ((if neg then ['-'] else []) ++ (d1 ++ '_' :: d2))⟩ =
        some ⟨(if neg then ['-'] else []) ++ d1 ++ '_' :: d2⟩) ∧
    (∀ u : String,
      containsSub "youtube.com".data u.data = false →
      containsSub "youtu.be".data u.data = false →
      containsSub "tiktok.com".data u.data = false →
      containsSub "rutube.ru".data u.data = false →
      containsSub "vk.com".data u.data = false →
      containsSub "vkvideo.ru".data u.data = false →
      extract_video_id u = none) :=
  ⟨resolveYtWatch, resolveYtBe, resolveYtEmbed, resolveYtV, resolveYtShorts,
   resolveTiktokCanon, resolveTiktokShort, by decide, by decide,
   resolveRutubeVideo, resolveRutubeVideoQuery, resolveRutubeShorts,
   resolveRutubeShortsQuery, resolveVkVideo, resolveVkVkvideo, resolveVkClip,
   resolveVkShvideo, resolveVkSearch, resolveVkvideoRu, resolveVkPlaylist,
   resolveGarbage⟩

/-- Witness for C9: every quantified clause applied at a concrete URL. -/
theorem C9_resolver_shapes_witness :
    extract_video_id "https://www.youtube.com/watch?v=dQw4w9WgXcQ" = some "dQw4w9WgXcQ" ∧
    extract_video_id "https://youtu.be/abc123XYZ_-" = some "abc123XYZ_-" ∧
    extract_video_id "https://www.youtube.com/embed/Kp7eSUU9oy8" = some "Kp7eSUU9oy8" ∧
    extract_video_id "https://www.youtube.com/v/Kp7eSUU9oy8" = some "Kp7eSUU9oy8" ∧
    extract_video_id "https://www.youtube.com/shorts/abcDEF123" = some "abcDEF123" ∧
    extract_video_id "https://www.tiktok.com/@user/video/7234567890123456789" =
      some "7234567890123456789" ∧
    extract_video_id "https://vm.tiktok.com/ZMhkqVm2p" = some "ZMhkqVm2p" ∧
    extract_video_id "https://rutube.ru/video/ab34cd56ef" = some "ab34cd56ef" ∧
    extract_video_id "https://rutube.ru/video/ab34cd56ef?p=1" = some "ab34cd56ef" ∧
    extract_video_id "https://rutube.ru/shorts/0f9e8d" = some "0f9e8d" ∧
    extract_video_id "https://rutube.ru/shorts/0f9e8d?p=1" = some "0f9e8d" ∧
    extract_video_id "https://vk.com/video-123456_789" = some "-123456_789" ∧
    extract_video_id "https://vk.com/vkvideo?z=video12_34" = some "12_34" ∧
    extract_video_id "https://vk.com/clip-1_2" = some "-1_2" ∧
    extract_video_id "https://vk.com/shvideo?a&z=clip-5_6" = some "-5_6" ∧
    extract_video_id "https://vk.com/search/video?q=a&z=video7_8" = some "7_8" ∧
    extract_video_id "https://vkvideo.ru/video-9_10" = some "-9_10" ∧
    extract_video_id "https://vkvideo.ru/playlist/best/video-11_12" = some "-11_12" ∧
    extract_video_id "just some random text" = none := by
  obtain ⟨c1, c2, c3, c4, c5, c6, c7, _, _, c10, c11, c12, c13, c14, c15, c16,
    c17, c18, c19, c20, c21⟩ := C9_resolver_shapes
  exact ⟨c1 "dQw4w9WgXcQ".data (by decide) (by decide),
    c2 "abc123XYZ_-".data (by decide) (by decide),
    c3 "Kp7eSUU9oy8".data (by decide) (by decide),
    c4 "Kp7eSUU9oy8".data (by decide) (by decide),
    c5 "abcDEF123".data (by decide) (by decide),
    c6 "7234567890123456789".data (by decide) (by decide),
    c7 "ZMhkqVm2p".data (by decide) (by decide),
    c10 "ab34cd56ef".data (by decide) (by decide),
    c11 "ab34cd56ef".data (by decide) (by decide),
    c12 "0f9e8d".data (by decide) (by decide),
    c13 "0f9e8d".data (by decide) (by decide),
    c14 true "123456".data "789".data (by decide) (by decide) (by decide) (by decide),
    c15 false "12".data "34".data (by decide) (by decide) (by decide) (by decide),
    c16 true "1".data "2".data (by decide) (by decide) (by decide) (by decide),
    c17 true "5".data "6".data (by decide) (by decide) (by decide) (by decide),
    c18 false "7".data "8".data (by decide) (by decide) (by decide) (by decide),
    c19 true "9".data "10".data (by decide) (by decide) (by decide) (by decide),
    c20 true "11".data "12".data (by decide) (by decide) (by decide) (by decide),
    c21 "just some random text" (by decide) (by decide) (by decide) (by decide)
      (by decide) (by decide)⟩

/-- C10 (implicit): `extract_video_id` uses an unanchored `re.search`, so a
string that is not itself a video URL but merely contains a supported URL
as a substring resolves to the embedded canonical id rather than `None`. -/
theorem C10_unanchored_search :
    extract_video_id "Watch this: https://youtu.be/dQw4w9WgXcQ and like" =
      some "dQw4w9WgXcQ" ∧
    is_valid_url "Watch this: https://youtu.be/dQw4w9WgXcQ and like" = true ∧
    extract_video_id "check youtube.com/watch?v=abc123 today" = some "abc123" := by
  decide

/-! ## Catalog claims (C6, C7) -/

/-- C7: for every resolvable URL whose fetched metadata reports a duration
strictly above the configured maximum, `get_or_create_video` returns `none`,
performs exactly the one metadata fetch, and persists no VideoRecord (the
store is returned unchanged). -/
theorem C7_duration_ceiling (s : Settings) (db : DB) (url vid : String)
    (i : VideoInfo)
    (hres : extract_video_id url = some vid)
    (hmiss : db.getVideo vid = none)
    (hdur : i.duration.getD 0 > s.max_video_duration) :
    get_or_create_video s db url (some i) = (db, none, 1) := by
  unfold get_or_create_video
  rw [hres]
  dsimp only
  rw [hmiss]
  dsimp only
  simp [hdur]

/-- Witness for C7 at a concrete over-long video. -/
theorem C7_duration_ceiling_witness :
    get_or_create_video ⟨10, 50⟩ {} "https://youtu.be/abc" (some ⟨some 100⟩) =
      ({}, none, 1) :=
  C7_duration_ceiling ⟨10, 50⟩ {} "https://youtu.be/abc" "abc" ⟨some 100⟩
    (by decide) (by decide) (by decide)

/-- C6: two `get_or_create_video` calls whose URLs resolve to the same id
return the same VideoRecord both times, the external metadata fetch runs at
most once across both calls (the second call performs none), and the second
call leaves the store unchanged. -/
theorem C6_get_or_create_idempotent (s : Settings) (db db1 : DB)
    (u1 u2 : String) (info1 info2 : Option VideoInfo) (vid : String)
    (v : Video) (n1 : Nat)
    (h1 : extract_video_id u1 = some vid)
    (h2 : extract_video_id u2 = some vid)
    (hfirst : get_or_create_video s db u1 info1 = (db1, some v, n1)) :
    get_or_create_video s db1 u2 info2 = (db1, some v, 0) ∧ n1 ≤ 1 := by
  unfold get_or_create_video at hfirst ⊢
  rw [h1] at hfirst
  dsimp only at hfirst
  rw [h2]
  dsimp only
  cases hg : db.getVideo vid with
  | some w =>
    rw [hg] at hfirst
    dsimp only at hfirst
    simp only [Prod.mk.injEq, Option.some.injEq] at hfirst
    obtain ⟨hdb, hv, hn⟩ := hfirst
    subst hdb
    subst hv
    rw [hg]
    exact ⟨rfl, by omega⟩
  | none =>
    rw [hg] at hfirst
    dsimp only at hfirst
    cases info1 with
    | none => simp at hfirst
    | some i =>
      dsimp only at hfirst
      by_cases hdur : i.duration.getD 0 > s.max_video_duration
      · rw [if_pos hdur] at hfirst
        simp at hfirst
      · rw [if_neg hdur] at hfirst
        simp only [Prod.mk.injEq, Option.some.injEq] at hfirst
        obtain ⟨hdb, hv, hn⟩ := hfirst
        have hget : db1.getVideo vid = some v := by
          rw [← hdb, ← hv]
          unfold DB.getVideo at hg ⊢
          rw [List.head?_eq_none_iff] at hg
          simp only [List.filter_append, hg, List.nil_append]
          simp [List.filter]
        rw [hget]
        exact ⟨rfl, by omega⟩

/-- Witness for C6: create then re-resolve the same video. -/
theorem C6_get_or_create_idempotent_witness :
    get_or_create_video ⟨3600, 50⟩
      ⟨[⟨"abc", "https://youtu.be/abc", some 60, 0, none, none, none⟩], [], [], 0⟩
      "https://www.youtube.com/watch?v=abc" none =
      (⟨[⟨"abc", "https://youtu.be/abc", some 60, 0, none, none, none⟩], [], [], 0⟩,
        some ⟨"abc", "https://youtu.be/abc", some 60, 0, none, none, none⟩, 0) ∧
    (0 : Nat) ≤ 1 :=
  C6_get_or_create_idempotent ⟨3600, 50⟩
    ⟨[⟨"abc", "https://youtu.be/abc", some 60, 0, none, none, none⟩], [], [], 0⟩
    ⟨[⟨"abc", "https://youtu.be/abc", some 60, 0, none, none, none⟩], [], [], 0⟩
    "https://youtu.be/abc" "https://www.youtube.com/watch?v=abc" none none "abc"
    ⟨"abc", "https://youtu.be/abc", some 60, 0, none, none, none⟩ 0
    (by decide) (by decide) (by decide)

/-! ## Orchestrator failure claim (C4) -/

/-- C4: every failing download attempt (size-limit violation before the
fetch, extractor error, or no file produced) ends with the record in
`FAILED`, a non-null `error_message`, null `file_path` and
`telegram_file_id`, and `start_new_download` returns the record normally
(it is a total function: the `except` block catches everything). -/
theorem C4_failures_recorded (s : Settings) (db : DB)
    (download : DownloadHistory) (video : Video) (user : User)
    (quality format_type : String) (file_size : Nat) (fetch : FetchOutcome)
    (hP : download.file_path = none) (hT : download.telegram_file_id = none)
    (hfail : file_size > s.max_file_size ∨ (∃ m, fetch = .error m) ∨
      fetch = .ok []) :
    (start_new_download s db download video user quality format_type file_size
        fetch).2.1.status = .failed ∧
    (start_new_download s db download video user quality format_type file_size
        fetch).2.1.error_message.isSome = true ∧
    (start_new_download s db download video user quality format_type file_size
        fetch).2.1.file_path = none ∧
    (start_new_download s db download video user quality format_type file_size
        fetch).2.1.telegram_file_id = none ∧
    (start_new_download s db download video user quality format_type file_size
        fetch).2.1.id = download.id := by
  have herr : ∃ msg, start_new_download_attempt s db download video user quality
      format_type file_size fetch = .error msg := by
    unfold start_new_download_attempt
    by_cases hg : file_size > s.max_file_size
    · exact ⟨_, by rw [if_pos hg]⟩
    · rcases hfail with h | ⟨m, rfl⟩ | rfl
      · exact absurd h hg
      · exact ⟨m, by rw [if_neg hg]⟩
      · exact ⟨_, by rw [if_neg hg]⟩
  obtain ⟨msg, hmsg⟩ := herr
  unfold start_new_download
  rw [hmsg]
  simp [DownloadHistory.mark_as_failed, DownloadHistory.mark_as_started, hP, hT]

/-- Witness for C4 at a concrete extractor failure. -/
theorem C4_failures_recorded_witness :
    (start_new_download ⟨3600, 1000⟩ {}
        ⟨0, some 1, "v1", "720p", "mp4", .pending, none, none, none, none, 0⟩
        ⟨"v1", "u", none, 0, none, none, none⟩ ⟨1, 0, 0⟩
        "720p" "mp4" 10 (.error "boom")).2.1.status = .failed ∧
    (start_new_download ⟨3600, 1000⟩ {}
        ⟨0, some 1, "v1", "720p", "mp4", .pending, none, none, none, none, 0⟩
        ⟨"v1", "u", none, 0, none, none, none⟩ ⟨1, 0, 0⟩
        "720p" "mp4" 10 (.error "boom")).2.1.error_message.isSome = true ∧
    (start_new_download ⟨3600, 1000⟩ {}
        ⟨0, some 1, "v1", "720p", "mp4", .pending, none, none, none, none, 0⟩
        ⟨"v1", "u", none, 0, none, none, none⟩ ⟨1, 0, 0⟩
        "720p" "mp4" 10 (.error "boom")).2.1.file_path = none ∧
    (start_new_download ⟨3600, 1000⟩ {}
        ⟨0, some 1, "v1", "720p", "mp4", .pending, none, none, none, none, 0⟩
        ⟨"v1", "u", none, 0, none, none, none⟩ ⟨1, 0, 0⟩
        "720p" "mp4" 10 (.error "boom")).2.1.telegram_file_id = none ∧
    (start_new_download ⟨3600, 1000⟩ {}
        ⟨0, some 1, "v1", "720p", "mp4", .pending, none, none, none, none, 0⟩
        ⟨"v1", "u", none, 0, none, none, none⟩ ⟨1, 0, 0⟩
        "720p" "mp4" 10 (.error "boom")).2.1.id = 0 :=
  C4_failures_recorded ⟨3600, 1000⟩ {}
    ⟨0, some 1, "v1", "720p", "mp4", .pending, none, none, none, none, 0⟩
    ⟨"v1", "u", none, 0, none, none, none⟩ ⟨1, 0, 0⟩
    "720p" "mp4" 10 (.error "boom") rfl rfl
    (Or.inr (Or.inl ⟨"boom", rfl⟩))

/-! ## Statistics claims (C8) -/

theorem addToBucketsPos (acc : List (Option Nat × UserBucket)) (uid : Option Nat)
    (st : DownloadStatus) (hacc : ∀ p ∈ acc, 0 < p.2.total) :
    ∀ p ∈ addToBuckets acc uid st, 0 < p.2.total := by
  induction acc with
  | nil =>
    intro p hp
    rcases List.mem_cons.mp hp with rfl | h
    · simp [UserBucket.add]
    · cases h
  | cons kb rest ih =>
    intro p hp
    unfold addToBuckets at hp
    by_cases hk : kb.1 = uid
    · rw [if_pos hk] at hp
      rcases List.mem_cons.mp hp with rfl | h
      · simp [UserBucket.add]
      · exact hacc p (List.mem_cons_of_mem kb h)
    · rw [if_neg hk] at hp
      rcases List.mem_cons.mp hp with rfl | h
      · exact hacc kb (List.mem_cons_self kb rest)
      · exact ih (fun q hq => hacc q (List.mem_cons_of_mem kb hq)) p h

theorem foldBucketsPos (l : List DownloadHistory)
    (acc : List (Option Nat × UserBucket)) (hacc : ∀ p ∈ acc, 0 < p.2.total) :
    ∀ p ∈ l.foldl (fun a d => addToBuckets a d.user_id d.status) acc,
      0 < p.2.total := by
  induction l generalizing acc with
  | nil => exact hacc
  | cons d rest ih =>
    exact ih (addToBuckets acc d.user_id d.status)
      (addToBucketsPos acc d.user_id d.status hacc)

/-- C8: the global statistics' success rate is `completed/total*100` when
the store holds downloads and `0` (no division error) when it holds none;
the same guard holds for the grand total of the 30-day windowed report and
per bucket (every bucket holds at least one download, so its rendered rate
is the guarded quotient). -/
theorem C8_success_rate_guard (db : DB) (today cutoff : Nat) :
    ((get_download_stats db today).total_downloads = 0 →
      (get_download_stats db today).success_rate = 0) ∧
    (0 < (get_download_stats db today).total_downloads →
      (get_download_stats db today).success_rate =
        ((get_download_stats db today).completed_downloads : ℚ) /
          ((get_download_stats db today).total_downloads : ℚ) * 100) ∧
    ((generate_stats db cutoff).2.1 = 0 → (generate_stats db cutoff).2.2.2.2 = 0) ∧
    (0 < (generate_stats db cutoff).2.1 →
      (generate_stats db cutoff).2.2.2.2 =
        ((generate_stats db cutoff).2.2.1 : ℚ) /
          ((generate_stats db cutoff).2.1 : ℚ) * 100) ∧
    (∀ p ∈ (generate_stats db cutoff).1, 0 < p.2.total ∧
      bucketRate p.2 = (p.2.completed : ℚ) / (p.2.total : ℚ) * 100) := by
  refine ⟨?_, ?_, ?_, ?_, ?_⟩
  · intro h
    have h' : db.downloads.length = 0 := h
    unfold get_download_stats
    dsimp only
    rw [if_neg (by omega)]
  · intro h
    have h' : 0 < db.downloads.length := h
    unfold get_download_stats
    dsimp only
    rw [if_pos h']
  · intro h
    have h' : ((((generate_stats db cutoff).1.map fun p => p.2.total)).sum) = 0 := h
    unfold generate_stats at h' ⊢
    dsimp only at h' ⊢
    rw [if_neg (by omega)]
  · intro h
    have h' : 0 < ((((generate_stats db cutoff).1.map fun p => p.2.total)).sum) := h
    unfold generate_stats at h' ⊢
    dsimp only at h' ⊢
    rw [if_pos h']
  · intro p hp
    have hpos : 0 < p.2.total := by
      have : p ∈ ((db.downloads.filter fun d => decide (d.created_at ≥ cutoff)).foldl
          (fun a d => addToBuckets a d.user_id d.status) []) := hp
      exact foldBucketsPos _ [] (by intro q hq; cases hq) p this
    exact ⟨hpos, by unfold bucketRate; rw [if_pos hpos]⟩

/-- Witness for C8 on an empty store and a store with one completed row. -/
theorem C8_success_rate_guard_witness :
    (get_download_stats {} 0).success_rate = 0 ∧
    (get_download_stats
      ⟨[], [], [⟨0, some 1, "v1", "720p", "mp4", .completed, none, none, none, none, 5⟩], 1⟩
      0).success_rate =
      ((get_download_stats
        ⟨[], [], [⟨0, some 1, "v1", "720p", "mp4", .completed, none, none, none, none, 5⟩], 1⟩
        0).completed_downloads : ℚ) /
        ((get_download_stats
          ⟨[], [], [⟨0, some 1, "v1", "720p", "mp4", .completed, none, none, none, none, 5⟩], 1⟩
          0).total_downloads : ℚ) * 100 ∧
    (generate_stats {} 0).2.2.2.2 = 0 := by
  refine ⟨(C8_success_rate_guard {} 0 0).1 (by decide), ?_, ?_⟩
  · exact (C8_success_rate_guard
      ⟨[], [], [⟨0, some 1, "v1", "720p", "mp4", .completed, none, none, none, none, 5⟩], 1⟩
      0 0).2.1 (by decide)
  · exact (C8_success_rate_guard {} 0 0).2.2.1 (by decide)

/-! ## Dedup claims (C3, C1) -/

/-- C3 counterexample: the claim says dedup updates the counters "exactly as
if a fresh download had occurred", but the dedup path credits the user's
byte total with the caller-supplied `file_size` argument (here 999) while a
fresh download of the same media (actual size 100, the size recorded on the
reused record) credits the actual size. -/
theorem C3_stats_as_fresh_counterexample :
    (download_video ⟨3600, 10000⟩
      ⟨[⟨"v1", "u", none, 0, none, none, none⟩], [⟨1, 0, 0⟩],
        [⟨0, some 1, "v1", "720p", "mp4", .completed, none, some "tg", some 100, none, 0⟩], 1⟩
      ⟨"v1", "u", none, 0, none, none, none⟩ ⟨1, 0, 0⟩
      (some ⟨0, some 1, "v1", "720p", "mp4", .completed, none, some "tg", some 100, none, 0⟩)
      "720p" "mp4" 999 (.ok [("p2", 100)]) 5).1.users = [⟨1, 1, 999⟩] ∧
    (download_video ⟨3600, 10000⟩
      ⟨[⟨"v1", "u", none, 0, none, none, none⟩], [⟨1, 0, 0⟩],
        [⟨0, some 1, "v1", "720p", "mp4", .completed, none, some "tg", some 100, none, 0⟩], 1⟩
      ⟨"v1", "u", none, 0, none, none, none⟩ ⟨1, 0, 0⟩
      none "720p" "mp4" 999 (.ok [("p2", 100)]) 5).1.users = [⟨1, 1, 100⟩] ∧
    (999 : Nat) ≠ 100 := by decide

/-- C3 amended: when a reusable completed download exists, the second
request performs zero media-fetch invocations and returns the existing
record; the video's `download_count` and the user's `total_downloads` are
incremented exactly as a fresh download would (+1 each), while the user's
byte total is incremented by the caller-supplied `file_size` argument (not
by the stored actual size of the reused download). -/
theorem C3_dedup_no_refetch_amended (s : Settings) (db : DB) (video : Video)
    (user : User) (ex : DownloadHistory) (quality format_type : String)
    (file_size : Nat) (fetch : FetchOutcome) (now : Nat)
    (_hex : get_existing_download db video quality format_type = some ex) :
    (download_video s db video user (some ex) quality format_type file_size
        fetch now).2.2 = 0 ∧
    (download_video s db video user (some ex) quality format_type file_size
        fetch now).2.1 = ex ∧
    (download_video s db video user (some ex) quality format_type file_size
        fetch now).1.videos = db.videos.map (fun w =>
      if w.video_id == video.video_id then w.increment_download_count else w) ∧
    (download_video s db video user (some ex) quality format_type file_size
        fetch now).1.users = db.users.map (fun u =>
      if u.id == user.id then u.increment_downloads file_size else u) :=
  ⟨rfl, rfl, rfl, rfl⟩

/-- Witness for C3 (amended) at a concrete deduplicated request. -/
theorem C3_dedup_no_refetch_amended_witness :
    (download_video ⟨3600, 10000⟩
      ⟨[⟨"v1", "u", none, 0, none, none, none⟩], [⟨1, 0, 0⟩],
        [⟨0, some 1, "v1", "720p", "mp4", .completed, none, some "tg", some 100, none, 0⟩], 1⟩
      ⟨"v1", "u", none, 0, none, none, none⟩ ⟨1, 0, 0⟩
      (some ⟨0, some 1, "v1", "720p", "mp4", .completed, none, some "tg", some 100, none, 0⟩)
      "720p" "mp4" 999 (.ok []) 5).2.2 = 0 ∧
    (download_video ⟨3600, 10000⟩
      ⟨[⟨"v1", "u", none, 0, none, none, none⟩], [⟨1, 0, 0⟩],
        [⟨0, some 1, "v1", "720p", "mp4", .completed, none, some "tg", some 100, none, 0⟩], 1⟩
      ⟨"v1", "u", none, 0, none, none, none⟩ ⟨1, 0, 0⟩
      (some ⟨0, some 1, "v1", "720p", "mp4", .completed, none, some "tg", some 100, none, 0⟩)
      "720p" "mp4" 999 (.ok []) 5).2.1 =
      ⟨0, some 1, "v1", "720p", "mp4", .completed, none, some "tg", some 100, none, 0⟩ := by
  have h := C3_dedup_no_refetch_amended ⟨3600, 10000⟩
    ⟨[⟨"v1", "u", none, 0, none, none, none⟩], [⟨1, 0, 0⟩],
      [⟨0, some 1, "v1", "720p", "mp4", .completed, none, some "tg", some 100, none, 0⟩], 1⟩
    ⟨"v1", "u", none, 0, none, none, none⟩ ⟨1, 0, 0⟩
    ⟨0, some 1, "v1", "720p", "mp4", .completed, none, some "tg", some 100, none, 0⟩
    "720p" "mp4" 999 (.ok []) 5 (by decide)
  exact ⟨h.1, h.2.1⟩

/-- Persisting a row with a fresh id into a table whose rows all have other
ids appends it: the `save` map rewrites only the placeholder row. -/
theorem saveFreshAppend (l : List DownloadHistory) (d0 d : DownloadHistory)
    (h : ∀ x ∈ l, x.id ≠ d.id) (h0 : d0.id = d.id) :
    (l ++ [d0]).map (fun x => if x.id == d.id then d else x) = l ++ [d] := by
  induction l with
  | nil => simp [h0]
  | cons a t ih =>
    have ha : (a.id == d.id) = false :=
      beq_eq_false_iff_ne.mpr (h a (List.mem_cons_self a t))
    simp only [List.cons_append, List.map_cons, ha]
    rw [ih (fun x hx => h x (List.mem_cons_of_mem a hx))]
    simp

/-- Error path of `start_new_download`: the failed record replaces the
pending one, everything else in the table is untouched. -/
theorem startNewError (s : Settings) (db : DB) (download : DownloadHistory)
    (video : Video) (user : User) (q ft : String) (fs : Nat)
    (fetch : FetchOutcome) (msg : String) (l : List DownloadHistory)
    (hatt : start_new_download_attempt s db download video user q ft fs fetch =
      .error msg)
    (hdb : db.downloads = l ++ [download])
    (hid : ∀ x ∈ l, x.id ≠ download.id) :
    (start_new_download s db download video user q ft fs fetch).2.1 =
      (download.mark_as_started).mark_as_failed msg ∧
    (start_new_download s db download video user q ft fs fetch).1.downloads =
      l ++ [(download.mark_as_started).mark_as_failed msg] := by
  unfold start_new_download
  rw [hatt]
  dsimp only
  refine ⟨rfl, ?_⟩
  show ((db.saveDownload download.mark_as_started).saveDownload
    ((download.mark_as_started).mark_as_failed msg)).downloads = _
  unfold DB.saveDownload
  dsimp only
  rw [hdb]
  rw [saveFreshAppend l download download.mark_as_started hid rfl]
  rw [saveFreshAppend l download.mark_as_started
    ((download.mark_as_started).mark_as_failed msg) hid rfl]

/-- Success path of `start_new_download`: the completed record replaces the
pending one. -/
theorem startNewOk (s : Settings) (db : DB) (download : DownloadHistory)
    (video : Video) (user : User) (q ft : String) (fs : Nat)
    (f : String × Nat) (rest : List (String × Nat)) (l : List DownloadHistory)
    (hg : ¬ fs > s.max_file_size)
    (hdb : db.downloads = l ++ [download])
    (hid : ∀ x ∈ l, x.id ≠ download.id) :
    (start_new_download s db download video user q ft fs (.ok (f :: rest))).2.1 =
      (download.mark_as_started).mark_as_completed f.1 f.2 ∧
    (start_new_download s db download video user q ft fs (.ok (f :: rest))).1.downloads =
      l ++ [(download.mark_as_started).mark_as_completed f.1 f.2] := by
  unfold start_new_download start_new_download_attempt
  dsimp only
  rw [if_neg hg]
  dsimp only
  refine ⟨rfl, ?_⟩
  by_cases hv : video.file_size.isNone = true
  · simp only [hv, if_true]
    show (((db.saveDownload download.mark_as_started).saveDownload
      ((download.mark_as_started).mark_as_completed f.1 f.2)).downloads) = _
    unfold DB.saveDownload
    dsimp only
    rw [hdb]
    rw [saveFreshAppend l download download.mark_as_started hid rfl]
    rw [saveFreshAppend l download.mark_as_started
      ((download.mark_as_started).mark_as_completed f.1 f.2) hid rfl]
  · simp only [hv, if_false]
    show (((db.saveDownload download.mark_as_started).saveDownload
      ((download.mark_as_started).mark_as_completed f.1 f.2)).downloads) = _
    unfold DB.saveDownload
    dsimp only
    rw [hdb]
    rw [saveFreshAppend l download download.mark_as_started hid rfl]
    rw [saveFreshAppend l download.mark_as_started
      ((download.mark_as_started).mark_as_completed f.1 f.2) hid rfl]

/-- `download_video` appends exactly one new row; the new row is the dedup
audit copy, a completed row with a local file, or a failed row. -/
theorem downloadVideoAppend (s : Settings) (db : DB) (video : Video)
    (user : User) (exd : Option DownloadHistory) (q ft : String) (fs : Nat)
    (fetch : FetchOutcome) (now : Nat)
    (hid : ∀ x ∈ db.downloads, x.id < db.nextId) :
    ∃ dnew,
      (download_video s db video user exd q ft fs fetch now).1.downloads =
        db.downloads ++ [dnew] ∧
      ((∃ ex, exd = some ex ∧ dnew.telegram_file_id = ex.telegram_file_id ∧
          dnew.status = ex.status ∧ dnew.file_path = none) ∨
       (dnew.status = .completed ∧ dnew.file_path.isSome = true) ∨
       dnew.status = .failed) := by
  have hid2 : ∀ x ∈ db.downloads,
      x.id ≠ (db.createDownload user.id video.video_id q ft now).2.id :=
    fun x hx => Nat.ne_of_lt (hid x hx)
  cases exd with
  | some ex =>
    have hdl : (download_video s db video user (some ex) q ft fs fetch now).1.downloads =
        db.downloads ++
          [{ (db.createDownload user.id video.video_id q ft now).2 with
              telegram_file_id := ex.telegram_file_id, status := ex.status,
              file_size := ex.file_size }] := by
      show ((update_download_statistics _ _ _ _).downloads) = _
      unfold update_download_statistics DB.updateVideo DB.updateUser
      dsimp only
      show ((DB.saveDownload _ _).downloads) = _
      unfold DB.saveDownload
      dsimp only
      exact saveFreshAppend db.downloads
        (db.createDownload user.id video.video_id q ft now).2
        { (db.createDownload user.id video.video_id q ft now).2 with
            telegram_file_id := ex.telegram_file_id, status := ex.status,
            file_size := ex.file_size } hid2 rfl
    exact ⟨_, hdl, Or.inl ⟨ex, rfl, rfl, rfl, rfl⟩⟩
  | none =>
    by_cases hg : fs > s.max_file_size
    · have hatt : start_new_download_attempt s
          (db.createDownload user.id video.video_id q ft now).1
          (db.createDownload user.id video.video_id q ft now).2
          video user q ft fs fetch = .error "Файл слишком большой" := by
        unfold start_new_download_attempt
        dsimp only
        rw [if_pos hg]
      obtain ⟨h1, h2⟩ := startNewError s
        (db.createDownload user.id video.video_id q ft now).1
        (db.createDownload user.id video.video_id q ft now).2
        video user q ft fs fetch "Файл слишком большой" db.downloads hatt rfl hid2
      exact ⟨_, h2, Or.inr (Or.inr rfl)⟩
    · cases fetch with
      | error m =>
        have hatt : start_new_download_attempt s
            (db.createDownload user.id video.video_id q ft now).1
            (db.createDownload user.id video.video_id q ft now).2
            video user q ft fs (.error m) = .error m := by
          unfold start_new_download_attempt
          dsimp only
          rw [if_neg hg]
        obtain ⟨h1, h2⟩ := startNewError s
          (db.createDownload user.id video.video_id q ft now).1
          (db.createDownload user.id video.video_id q ft now).2
          video user q ft fs (.error m) m db.downloads hatt rfl hid2
        exact ⟨_, h2, Or.inr (Or.inr rfl)⟩
      | ok files =>
        cases files with
        | nil =>
          have hatt : start_new_download_attempt s
              (db.createDownload user.id video.video_id q ft now).1
              (db.createDownload user.id video.video_id q ft now).2
              video user q ft fs (.ok []) = .error "Файл не был скачан" := by
            unfold start_new_download_attempt
            dsimp only
            rw [if_neg hg]
          obtain ⟨h1, h2⟩ := startNewError s
            (db.createDownload user.id video.video_id q ft now).1
            (db.createDownload user.id video.video_id q ft now).2
            video user q ft fs (.ok []) "Файл не был скачан" db.downloads hatt rfl hid2
          exact ⟨_, h2, Or.inr (Or.inr rfl)⟩
        | cons f rest =>
          obtain ⟨h1, h2⟩ := startNewOk s
            (db.createDownload user.id video.video_id q ft now).1
            (db.createDownload user.id video.video_id q ft now).2
            video user q ft fs f rest db.downloads hg rfl hid2
          exact ⟨_, h2, Or.inr (Or.inl ⟨rfl, rfl⟩)⟩

/-- C1 counterexample: with an existing completed record whose only durable
pointer is its `file_path`, the dedup path of `download_video` persists a
new audit record in `COMPLETED` whose `file_path` and `telegram_file_id`
are both null — the claimed invariant fails on that record. -/
theorem C1_dedup_audit_counterexample :
    get_existing_download
      ⟨[⟨"v1", "u", none, 0, none, none, none⟩], [⟨1, 0, 0⟩],
        [⟨0, some 1, "v1", "720p", "mp4", .completed, some "d/f.mp4", none, some 100, none, 0⟩], 1⟩
      ⟨"v1", "u", none, 0, none, none, none⟩ "720p" "mp4" =
      some ⟨0, some 1, "v1", "720p", "mp4", .completed, some "d/f.mp4", none, some 100, none, 0⟩ ∧
    ((download_video ⟨3600, 10000⟩
      ⟨[⟨"v1", "u", none, 0, none, none, none⟩], [⟨1, 0, 0⟩],
        [⟨0, some 1, "v1", "720p", "mp4", .completed, some "d/f.mp4", none, some 100, none, 0⟩], 1⟩
      ⟨"v1", "u", none, 0, none, none, none⟩ ⟨1, 0, 0⟩
      (some ⟨0, some 1, "v1", "720p", "mp4", .completed, some "d/f.mp4", none, some 100, none, 0⟩)
      "720p" "mp4" 999 (.ok []) 5).1.downloads.filter fun d =>
        d.status == DownloadStatus.completed && d.file_path.isNone &&
          d.telegram_file_id.isNone).length = 1 := by decide

/-- C1 amended: provided every pre-existing row id is below the id
generator (fresh ids) and — in the dedup case — the reused record carries a
non-null `telegram_file_id`, every record `download_video` leaves in the
store is either untouched, not `COMPLETED`, or carries a durable pointer.
(Without the `telegram_file_id` proviso the audit record copies a null
remote reference and violates the invariant, as the counterexample shows;
the fresh-download path needs no proviso.) -/
theorem C1_durable_pointer_amended (s : Settings) (db : DB) (video : Video)
    (user : User) (exd : Option DownloadHistory) (q ft : String) (fs : Nat)
    (fetch : FetchOutcome) (now : Nat)
    (hid : ∀ x ∈ db.downloads, x.id < db.nextId)
    (hex : ∀ ex, exd = some ex → ex.telegram_file_id.isSome = true) :
    ∀ d ∈ (download_video s db video user exd q ft fs fetch now).1.downloads,
      d ∈ db.downloads ∨ d.status ≠ .completed ∨
      d.file_path.isSome = true ∨ d.telegram_file_id.isSome = true := by
  obtain ⟨dnew, hdl, hcases⟩ :=
    downloadVideoAppend s db video user exd q ft fs fetch now hid
  intro d hd
  rw [hdl] at hd
  rcases List.mem_append.mp hd with h | h
  · exact Or.inl h
  · have hdn : d = dnew := List.mem_singleton.mp h
    subst hdn
    rcases hcases with ⟨ex, hexd, htg, _, _⟩ | ⟨_, hfp⟩ | hst
    · exact Or.inr (Or.inr (Or.inr (htg ▸ hex ex hexd)))
    · exact Or.inr (Or.inr (Or.inl hfp))
    · exact Or.inr (Or.inl (by rw [hst]; decide))

/-- Witness for C1 (amended): the audit record of a dedup against a record
with a remote reference carries that reference. -/
theorem C1_durable_pointer_amended_witness :
    (⟨1, some 1, "v1", "720p", "mp4", .completed, none, some "tg", some 100, none, 5⟩ :
        DownloadHistory) ∈
      (download_video ⟨3600, 10000⟩
        ⟨[⟨"v1", "u", none, 0, none, none, none⟩], [⟨1, 0, 0⟩],
          [⟨0, some 1, "v1", "720p", "mp4", .completed, none, some "tg", some 100, none, 0⟩], 1⟩
        ⟨"v1", "u", none, 0, none, none, none⟩ ⟨1, 0, 0⟩
        (some ⟨0, some 1, "v1", "720p", "mp4", .completed, none, some "tg", some 100, none, 0⟩)
        "720p" "mp4" 999 (.ok []) 5).1.downloads ∧
    ((⟨1, some 1, "v1", "720p", "mp4", .completed, none, some "tg", some 100, none, 5⟩ :
        DownloadHistory) ∈
      (⟨[⟨"v1", "u", none, 0, none, none, none⟩], [⟨1, 0, 0⟩],
        [⟨0, some 1, "v1", "720p", "mp4", .completed, none, some "tg", some 100, none, 0⟩], 1⟩ :
        DB).downloads ∨
     (⟨1, some 1, "v1", "720p", "mp4", .completed, none, some "tg", some 100, none, 5⟩ :
        DownloadHistory).status ≠ .completed ∨
     (⟨1, some 1, "v1", "720p", "mp4", .completed, none, some "tg", some 100, none, 5⟩ :
        DownloadHistory).file_path.isSome = true ∨
     (⟨1, some 1, "v1", "720p", "mp4", .completed, none, some "tg", some 100, none, 5⟩ :
        DownloadHistory).telegram_file_id.isSome = true) := by
  refine ⟨by decide, ?_⟩
  exact C1_durable_pointer_amended ⟨3600, 10000⟩
    ⟨[⟨"v1", "u", none, 0, none, none, none⟩], [⟨1, 0, 0⟩],
      [⟨0, some 1, "v1", "720p", "mp4", .completed, none, some "tg", some 100, none, 0⟩], 1⟩
    ⟨"v1", "u", none, 0, none, none, none⟩ ⟨1, 0, 0⟩
    (some ⟨0, some 1, "v1", "720p", "mp4", .completed, none, some "tg", some 100, none, 0⟩)
    "720p" "mp4" 999 (.ok []) 5 (by decide)
    (fun ex hx => by cases hx; decide)
    ⟨1, some 1, "v1", "720p", "mp4", .completed, none, some "tg", some 100, none, 5⟩
    (by decide)

/-! ## Cleanup claims (C5, C2) -/

theorem iteRmdirFiles (fs1 : FS) (b : Prop) [Decidable b] (x : String) :
    (if b then fs1.rmdir x else fs1).files = fs1.files := by
  split <;> rfl

theorem existsFileFiles (fs fs2 : FS) (h : fs.files = fs2.files) (q : String) :
    fs.existsFile q = fs2.existsFile q := by
  unfold FS.existsFile
  rw [h]

theorem removeFileSpec (fs : FS) (p q : String) :
    ((fs.removeFile p).existsFile q = true) ↔
      (fs.existsFile q = true ∧ q ≠ p) := by
  unfold FS.existsFile FS.removeFile
  simp only [List.any_eq_true, List.mem_filter, Bool.not_eq_eq_eq_not,
    Bool.not_true, beq_iff_eq, beq_eq_false_iff_ne]
  constructor
  · rintro ⟨x, ⟨hx, hne⟩, rfl⟩
    exact ⟨⟨x, hx, rfl⟩, hne⟩
  · rintro ⟨⟨x, hx, rfl⟩, hne⟩
    exact ⟨x, ⟨hx, hne⟩, rfl⟩

theorem mapCongrMem (l : List DownloadHistory)
    (f g : DownloadHistory → DownloadHistory)
    (h : ∀ x ∈ l, f x = g x) : l.map f = l.map g := by
  induction l with
  | nil => rfl
  | cons a t ih =>
    simp only [List.map_cons, h a (List.mem_cons_self a t)]
    rw [ih fun x hx => h x (List.mem_cons_of_mem a hx)]

/-- Invariant of the cleanup fold over a snapshot of target rows: the
counter gains one per row, exactly the rows' files disappear from the
filesystem, and exactly the rows' `file_path`s are nulled in the store. -/
theorem cleanupFold (L : List DownloadHistory) (db : DB) (fs : FS) (n : Nat)
    (hT : ∀ d ∈ L, cleanupTarget d = true)
    (hN : (L.filterMap fun d => d.file_path).Nodup)
    (hE : ∀ d ∈ L, ∀ p, d.file_path = some p → fs.existsFile p = true)
    (hD : ∀ d ∈ L, ∀ x ∈ db.downloads, x.id = d.id → x = d)
    (hI : (L.map fun d => d.id).Nodup) :
    (L.foldl cleanupOne (db, fs, n)).2.2 = n + L.length ∧
    (∀ q : String, (L.foldl cleanupOne (db, fs, n)).2.1.existsFile q = true ↔
      (fs.existsFile q = true ∧ q ∉ L.filterMap fun d => d.file_path)) ∧
    (L.foldl cleanupOne (db, fs, n)).1.downloads =
      db.downloads.map fun x =>
        if x.id ∈ (L.map fun d => d.id) then { x with file_path := none } else x := by
  induction L generalizing db fs n with
  | nil =>
    refine ⟨rfl, ?_, ?_⟩
    · intro q
      simp
    · simp
  | cons d L2 ih =>
    have hTd := hT d (List.mem_cons_self d L2)
    have hfpS : d.file_path.isSome = true := by
      unfold cleanupTarget at hTd
      rw [Bool.and_eq_true] at hTd
      exact hTd.2
    obtain ⟨p, hp⟩ := Option.isSome_iff_exists.mp hfpS
    have hEx : fs.existsFile p = true := hE d (List.mem_cons_self d L2) p hp
    have hNc : ((d :: L2).filterMap fun x => x.file_path) =
        p :: (L2.filterMap fun x => x.file_path) := by
      simp [List.filterMap_cons, hp]
    have hNodup := hNc ▸ hN
    have hpNotIn : p ∉ (L2.filterMap fun x => x.file_path) :=
      (List.nodup_cons.mp hNodup).1
    have hN2 : (L2.filterMap fun x => x.file_path).Nodup :=
      (List.nodup_cons.mp hNodup).2
    have hIc : ((d :: L2).map fun x => x.id) = d.id :: (L2.map fun x => x.id) := rfl
    have hidNotIn : d.id ∉ (L2.map fun x => x.id) :=
      (List.nodup_cons.mp (hIc ▸ hI)).1
    have hI2 : (L2.map fun x => x.id).Nodup := (List.nodup_cons.mp (hIc ▸ hI)).2
    have hstep : cleanupOne (db, fs, n) d =
        (db.saveDownload { d with file_path := none },
         if (fs.removeFile p).existsDir (dirname p) &&
             (fs.removeFile p).listdirEmpty (dirname p) then
           (fs.removeFile p).rmdir (dirname p)
         else fs.removeFile p,
         n + 1) := by
      unfold cleanupOne
      rw [hp]
      dsimp only
      rw [if_pos hEx]
    have hfs2files :
        (if (fs.removeFile p).existsDir (dirname p) &&
            (fs.removeFile p).listdirEmpty (dirname p) then
          (fs.removeFile p).rmdir (dirname p)
        else fs.removeFile p).files = (fs.removeFile p).files :=
      iteRmdirFiles (fs.removeFile p) _ (dirname p)
    have hfs2exists : ∀ q,
        (if (fs.removeFile p).existsDir (dirname p) &&
            (fs.removeFile p).listdirEmpty (dirname p) then
          (fs.removeFile p).rmdir (dirname p)
        else fs.removeFile p).existsFile q = (fs.removeFile p).existsFile q :=
      fun q => existsFileFiles _ _ hfs2files q
    have hT2 : ∀ x ∈ L2, cleanupTarget x = true :=
      fun x hx => hT x (List.mem_cons_of_mem d hx)
    have hE2 : ∀ x ∈ L2, ∀ p2, x.file_path = some p2 →
        (if (fs.removeFile p).existsDir (dirname p) &&
            (fs.removeFile p).listdirEmpty (dirname p) then
          (fs.removeFile p).rmdir (dirname p)
        else fs.removeFile p).existsFile p2 = true := by
      intro x hx p2 hp2
      rw [hfs2exists p2]
      rw [show ((fs.removeFile p).existsFile p2 = true) ↔ _ from removeFileSpec fs p p2]
      refine ⟨hE x (List.mem_cons_of_mem d hx) p2 hp2, ?_⟩
      intro hqp
      subst hqp
      exact hpNotIn (List.mem_filterMap.mpr ⟨x, hx, hp2⟩)
    have hD2 : ∀ x ∈ L2, ∀ y ∈ (db.saveDownload { d with file_path := none }).downloads,
        y.id = x.id → y = x := by
      intro x hx y hy hyx
      unfold DB.saveDownload at hy
      dsimp only at hy
      obtain ⟨z, hz, hzy⟩ := List.mem_map.mp hy
      by_cases hzd : (z.id == ({ d with file_path := none } : DownloadHistory).id) = true
      · rw [if_pos hzd] at hzy
        subst hzy
        exfalso
        have : d.id = x.id := hyx
        exact hidNotIn (this ▸ List.mem_map.mpr ⟨x, hx, rfl⟩)
      · rw [if_neg hzd] at hzy
        subst hzy
        exact hD x (List.mem_cons_of_mem d hx) z hz hyx
    have hfold : (d :: L2).foldl cleanupOne (db, fs, n) =
        L2.foldl cleanupOne (cleanupOne (db, fs, n) d) := rfl
    rw [hfold, hstep]
    obtain ⟨ih1, ih2, ih3⟩ := ih (db.saveDownload { d with file_path := none })
      (if (fs.removeFile p).existsDir (dirname p) &&
          (fs.removeFile p).listdirEmpty (dirname p) then
        (fs.removeFile p).rmdir (dirname p)
      else fs.removeFile p) (n + 1) hT2 hN2 hE2 hD2 hI2
    refine ⟨?_, ?_, ?_⟩
    · rw [ih1]
      simp only [List.length_cons]
      omega
    · intro q
      rw [ih2 q, hfs2exists q, hNc]
      rw [show ((fs.removeFile p).existsFile q = true) ↔ _ from removeFileSpec fs p q]
      simp only [List.mem_cons]
      constructor
      · rintro ⟨⟨hfq, hqp⟩, hnot⟩
        exact ⟨hfq, fun hmem => hmem.elim hqp hnot⟩
      · rintro ⟨hfq, hnot⟩
        exact ⟨⟨hfq, fun hq => hnot (Or.inl hq)⟩, fun hq => hnot (Or.inr hq)⟩
    · rw [ih3]
      unfold DB.saveDownload
      dsimp only
      rw [List.map_map]
      apply mapCongrMem
      intro x hx
      simp only [Function.comp]
      by_cases hxd : (x.id == ({ d with file_path := none } : DownloadHistory).id) = true
      · rw [if_pos hxd]
        have hxid : x.id = d.id := beq_iff_eq.mp hxd
        have hxeq : x = d := hD d (List.mem_cons_self d L2) x hx hxid
        rw [if_neg (by simpa using hidNotIn)]
        rw [hIc]
        rw [if_pos (by rw [hxid]; exact List.mem_cons_self _ _)]
        rw [hxeq]
      · rw [if_neg hxd]
        have hxid : x.id ≠ d.id := by
          intro h
          exact hxd (beq_iff_eq.mpr h)
        rw [hIc]
        by_cases hmem : x.id ∈ (L2.map fun y => y.id)
        · rw [if_pos hmem, if_pos (List.mem_cons_of_mem _ hmem)]
        · rw [if_neg hmem, if_neg (by
            intro hc
            rcases List.mem_cons.mp hc with h | h
            · exact hxid h
            · exact hmem h)]

/-- Full specification of one `cleanup_all_files` sweep on a store with
unique row ids whose target rows point at distinct existing files: it
deletes exactly the N target files, nulls exactly their `file_path`s,
returns N, and an immediate second sweep returns 0. -/
theorem cleanupAllSpec (db : DB) (fs : FS)
    (hids : (db.downloads.map fun d => d.id).Nodup)
    (hpaths : ((db.downloads.filter cleanupTarget).filterMap
      fun d => d.file_path).Nodup)
    (hex : ∀ d ∈ db.downloads, cleanupTarget d = true →
      ∀ p, d.file_path = some p → fs.existsFile p = true) :
    (cleanup_all_files db fs).2.2 = (db.downloads.filter cleanupTarget).length ∧
    (∀ d ∈ (cleanup_all_files db fs).1.downloads,
      d.status = .completed → d.file_path = none) ∧
    (∀ d ∈ db.downloads, cleanupTarget d = true → ∀ p, d.file_path = some p →
      (cleanup_all_files db fs).2.1.existsFile p = false) ∧
    (cleanup_all_files (cleanup_all_files db fs).1
      (cleanup_all_files db fs).2.1).2.2 = 0 := by
  have hT : ∀ d ∈ db.downloads.filter cleanupTarget, cleanupTarget d = true :=
    fun d hd => (List.mem_filter.mp hd).2
  have hsub : ∀ d ∈ db.downloads.filter cleanupTarget, d ∈ db.downloads :=
    fun d hd => (List.mem_filter.mp hd).1
  have hE : ∀ d ∈ db.downloads.filter cleanupTarget, ∀ p, d.file_path = some p →
      fs.existsFile p = true :=
    fun d hd p hp => hex d (hsub d hd) (hT d hd) p hp
  have hD : ∀ d ∈ db.downloads.filter cleanupTarget, ∀ x ∈ db.downloads,
      x.id = d.id → x = d :=
    fun d hd x hx hxy => List.inj_on_of_nodup_map hids hx (hsub d hd) hxy
  have hI : ((db.downloads.filter cleanupTarget).map fun d => d.id).Nodup :=
    hids.sublist ((List.filter_sublist db.downloads).map _)
  obtain ⟨h1, h2, h3⟩ :=
    cleanupFold (db.downloads.filter cleanupTarget) db fs 0 hT hpaths hE hD hI
  have hca : cleanup_all_files db fs =
      (db.downloads.filter cleanupTarget).foldl cleanupOne (db, fs, 0) := rfl
  have part1 : (cleanup_all_files db fs).2.2 =
      (db.downloads.filter cleanupTarget).length := by
    rw [hca, h1]
    omega
  have part2 : ∀ d ∈ (cleanup_all_files db fs).1.downloads,
      d.status = .completed → d.file_path = none := by
    intro d hd hst
    rw [hca, h3] at hd
    obtain ⟨x, hx, hxeq⟩ := List.mem_map.mp hd
    by_cases hm : x.id ∈ (db.downloads.filter cleanupTarget).map fun y => y.id
    · rw [if_pos hm] at hxeq
      rw [← hxeq]
    · rw [if_neg hm] at hxeq
      subst hxeq
      cases hfp : x.file_path with
      | none => rfl
      | some p =>
        exfalso
        have htgt : cleanupTarget x = true := by
          unfold cleanupTarget
          rw [hst, hfp]
          rfl
        exact hm (List.mem_map.mpr ⟨x, List.mem_filter.mpr ⟨hx, htgt⟩, rfl⟩)
  have part3 : ∀ d ∈ db.downloads, cleanupTarget d = true →
      ∀ p, d.file_path = some p →
      (cleanup_all_files db fs).2.1.existsFile p = false := by
    intro d hd htarget p hp
    have hin : p ∈ (db.downloads.filter cleanupTarget).filterMap
        fun y => y.file_path :=
      List.mem_filterMap.mpr ⟨d, List.mem_filter.mpr ⟨hd, htarget⟩, hp⟩
    rw [hca]
    cases hval : ((db.downloads.filter cleanupTarget).foldl cleanupOne
        (db, fs, 0)).2.1.existsFile p with
    | false => rfl
    | true => exact absurd hin ((h2 p).mp hval).2
  have part4 : (cleanup_all_files (cleanup_all_files db fs).1
      (cleanup_all_files db fs).2.1).2.2 = 0 := by
    have hnone : (cleanup_all_files db fs).1.downloads.filter cleanupTarget = [] := by
      rw [List.filter_eq_nil_iff]
      intro a ha hta
      have hparts : (a.status == DownloadStatus.completed) = true ∧
          a.file_path.isSome = true := by
        unfold cleanupTarget at hta
        rw [Bool.and_eq_true] at hta
        exact hta
      have hfp : a.file_path = none :=
        part2 a ha (beq_iff_eq.mp hparts.1)
      rw [hfp] at hparts
      cases hparts.2
    have hdef : cleanup_all_files (cleanup_all_files db fs).1
        (cleanup_all_files db fs).2.1 =
        ((cleanup_all_files db fs).1.downloads.filter cleanupTarget).foldl
          cleanupOne ((cleanup_all_files db fs).1, (cleanup_all_files db fs).2.1, 0) :=
      rfl
    rw [hdef, hnone]
    rfl
  exact ⟨part1, part2, part3, part4⟩

/-- C5: one `cleanup_all_files` call on a store whose N `COMPLETED` rows
with non-null `file_path` point at N distinct existing files removes all N
files, nulls all their `file_path`s (no completed row keeps a path), and
returns N; an immediate second call returns 0. -/
theorem C5_cleanup_all_idempotent (db : DB) (fs : FS)
    (hids : (db.downloads.map fun d => d.id).Nodup)
    (hpaths : ((db.downloads.filter cleanupTarget).filterMap
      fun d => d.file_path).Nodup)
    (hex : ∀ d ∈ db.downloads, cleanupTarget d = true →
      ∀ p, d.file_path = some p → fs.existsFile p = true) :
    (cleanup_all_files db fs).2.2 = (db.downloads.filter cleanupTarget).length ∧
    (∀ d ∈ (cleanup_all_files db fs).1.downloads,
      d.status = .completed → d.file_path = none) ∧
    (∀ d ∈ db.downloads, cleanupTarget d = true → ∀ p, d.file_path = some p →
      (cleanup_all_files db fs).2.1.existsFile p = false) ∧
    (cleanup_all_files (cleanup_all_files db fs).1
      (cleanup_all_files db fs).2.1).2.2 = 0 :=
  cleanupAllSpec db fs hids hpaths hex

/-- Witness for C5 with two completed rows holding distinct existing files:
the sweep returns 2, the immediate second sweep returns 0. -/
theorem C5_cleanup_all_idempotent_witness :
    (cleanup_all_files
      ⟨[], [],
        [⟨0, some 1, "v1", "720p", "mp4", .completed, some "a/f1.mp4", none, some 5, none, 0⟩,
         ⟨1, some 2, "v2", "360p", "mp4", .completed, some "b/f2.mp4", none, some 7, none, 1⟩], 2⟩
      ⟨[("a/f1.mp4", 5), ("b/f2.mp4", 7)], ["a", "b"]⟩).2.2 = 2 ∧
    (cleanup_all_files
      (cleanup_all_files
        ⟨[], [],
          [⟨0, some 1, "v1", "720p", "mp4", .completed, some "a/f1.mp4", none, some 5, none, 0⟩,
           ⟨1, some 2, "v2", "360p", "mp4", .completed, some "b/f2.mp4", none, some 7, none, 1⟩], 2⟩
        ⟨[("a/f1.mp4", 5), ("b/f2.mp4", 7)], ["a", "b"]⟩).1
      (cleanup_all_files
        ⟨[], [],
          [⟨0, some 1, "v1", "720p", "mp4", .completed, some "a/f1.mp4", none, some 5, none, 0⟩,
           ⟨1, some 2, "v2", "360p", "mp4", .completed, some "b/f2.mp4", none, some 7, none, 1⟩], 2⟩
        ⟨[("a/f1.mp4", 5), ("b/f2.mp4", 7)], ["a", "b"]⟩).2.1).2.2 = 0 := by
  have h := C5_cleanup_all_idempotent
    ⟨[], [],
      [⟨0, some 1, "v1", "720p", "mp4", .completed, some "a/f1.mp4", none, some 5, none, 0⟩,
       ⟨1, some 2, "v2", "360p", "mp4", .completed, some "b/f2.mp4", none, some 7, none, 1⟩], 2⟩
    ⟨[("a/f1.mp4", 5), ("b/f2.mp4", 7)], ["a", "b"]⟩
    (by decide) (by decide) (by decide)
  exact ⟨h.1.trans (by decide), h.2.2.2⟩

/-- C2 counterexample: the claim says that for every state with filesystem
usage below the configured threshold one scheduler iteration removes zero
files.  The loop body (funcs.py:88-95) never consults any usage measure —
`async_disk_usage` is never called — and simply runs `cleanup_all_files`:
at this concrete state (one completed row, one tiny existing file, so any
usage level is realisable) the iteration removes 1 file, not 0. -/
theorem C2_below_threshold_counterexample :
    (cleanup_scheduler_iteration
      ⟨[], [],
        [⟨0, some 1, "v1", "720p", "mp4", .completed, some "d/f.mp4", none, some 5, none, 0⟩], 1⟩
      ⟨[("d/f.mp4", 5)], ["d"]⟩).2.2 = 1 ∧ (1 : Nat) ≠ 0 := by decide

/-- C2 amended: each iteration of `cleanup_scheduler` unconditionally runs
the full sweep `cleanup_all_files`, regardless of filesystem usage: it
deletes every completed download's existing file (count = number of target
rows) and nulls every completed row's `file_path`; no usage threshold,
byte target, or oldest-first order is involved. -/
theorem C2_scheduler_unconditional_amended (db : DB) (fs : FS)
    (hids : (db.downloads.map fun d => d.id).Nodup)
    (hpaths : ((db.downloads.filter cleanupTarget).filterMap
      fun d => d.file_path).Nodup)
    (hex : ∀ d ∈ db.downloads, cleanupTarget d = true →
      ∀ p, d.file_path = some p → fs.existsFile p = true) :
    (cleanup_scheduler_iteration db fs).2.2 =
      (db.downloads.filter cleanupTarget).length ∧
    (∀ d ∈ (cleanup_scheduler_iteration db fs).1.downloads,
      d.status = .completed → d.file_path = none) :=
  ⟨(cleanupAllSpec db fs hids hpaths hex).1,
   (cleanupAllSpec db fs hids hpaths hex).2.1⟩

/-- Witness for C2 (amended) at the counterexample's below-threshold
state: the iteration clears the single completed file. -/
theorem C2_scheduler_unconditional_amended_witness :
    (cleanup_scheduler_iteration
      ⟨[], [],
        [⟨0, some 1, "v1", "720p", "mp4", .completed, some "d/f.mp4", none, some 5, none, 0⟩], 1⟩
      ⟨[("d/f.mp4", 5)], ["d"]⟩).2.2 = 1 := by
  have h := C2_scheduler_unconditional_amended
    ⟨[], [],
      [⟨0, some 1, "v1", "720p", "mp4", .completed, some "d/f.mp4", none, some 5, none, 0⟩], 1⟩
    ⟨[("d/f.mp4", 5)], ["d"]⟩ (by decide) (by decide) (by decide)
  exact h.1.trans (by decide)

end Bot
